import Mathlib

/-!
Verification development for the best-match device matching engine
(`modules/bestMatch/matcher_engine.py`, the optimized generation, and
`modules/bestMatch/matcher.py`, the earlier generation).

Scores are modelled as rationals; all numeric constants in the source are
exactly representable, and every comparison the code performs is on such
constants, so no floating-point rounding behaviour is load-bearing for the
properties proved here.  The TF-IDF cosine-similarity slow path of the two
similarity functions is modelled as an explicit oracle parameter
(`tf : String -> List String -> Rat`): the code hands the normalized query and
normalized candidate list to scikit-learn and receives back the maximal cosine
similarity, a value in the interval from 0 to 1; theorems that depend on a
slow-path value take the needed bound on the oracle as a hypothesis.
-/

attribute [local semireducible] Rat.mul Rat.add Rat.inv Rat.sub

set_option maxHeartbeats 1000000

namespace BestMatch

/-- ASCII model of Python `str.lower` used by `normalize` (source line 74).
Only characters relevant to the kept alphabet (a-z, 0-9, CJK) matter: every
non-ASCII character is deleted by the final keep-filter regardless of case. -/
def pyToLower (c : Char) : Char :=
  if 65 ≤ c.toNat ∧ c.toNat ≤ 90 then Char.ofNat (c.toNat + 32) else c

/-- Characters removed by `_RE_SPACE` (Python `\s`, source line 27). -/
def spaceChar (c : Char) : Bool :=
  c.toNat = 32 ∨ c.toNat = 9 ∨ c.toNat = 10 ∨ c.toNat = 13 ∨ c.toNat = 11 ∨ c.toNat = 12

/-- Characters removed by `_RE_DASH` (underscore and hyphen, source line 28). -/
def dashChar (c : Char) : Bool :=
  c.toNat = 95 ∨ c.toNat = 45

/-- Characters kept by `_RE_KEEP` (source line 29): lower-case ASCII letters,
ASCII digits, and CJK ideographs U+4E00 to U+9FA5. -/
def keepChar (c : Char) : Bool :=
  (97 ≤ c.toNat ∧ c.toNat ≤ 122) ∨ (48 ≤ c.toNat ∧ c.toNat ≤ 57) ∨
    (0x4e00 ≤ c.toNat ∧ c.toNat ≤ 0x9fa5)

/-- The character pipeline of `normalize` (source lines 74 to 78): lower-case,
drop whitespace, drop underscores and hyphens, keep only the allowed alphabet.
The trailing `.strip()` of the source is the identity here because no
whitespace character survives the keep-filter. -/
def normChars (l : List Char) : List Char :=
  ((((l.map pyToLower).filter (fun c => !spaceChar c)).filter
      (fun c => !dashChar c)).filter keepChar)

/-- `normalize` (matcher_engine.py lines 65 to 81; identical body as
`normalize_text` in matcher.py lines 105 to 115).  The LRU cache of the source
memoizes a pure function and is behaviourally transparent, so it is not
modelled. -/
def normalize (text : String) : String :=
  if text = ("" : String) then ("" : String)
  else String.mk (normChars text.toList)

theorem normChars_nil : normChars [] = [] := rfl

theorem normalize_eq_mk (s : String) : normalize s = String.mk (normChars s.toList) := by
  by_cases h : s = ("" : String)
  · subst h; rfl
  · simp [normalize, h]

theorem keepChar_of_mem_normChars {c : Char} {l : List Char}
    (h : c ∈ normChars l) : keepChar c = true :=
  List.of_mem_filter h

theorem pyToLower_of_keep {c : Char} (h : keepChar c = true) : pyToLower c = c := by
  simp only [keepChar, decide_eq_true_eq] at h
  simp only [pyToLower]
  split
  · omega
  · rfl

theorem not_spaceChar_of_keep {c : Char} (h : keepChar c = true) : spaceChar c = false := by
  simp only [keepChar, decide_eq_true_eq] at h
  simp only [spaceChar, decide_eq_false_iff_not]
  omega

theorem not_dashChar_of_keep {c : Char} (h : keepChar c = true) : dashChar c = false := by
  simp only [keepChar, decide_eq_true_eq] at h
  simp only [dashChar, decide_eq_false_iff_not]
  omega

theorem normChars_of_all_keep {l : List Char} (h : ∀ c ∈ l, keepChar c = true) :
    normChars l = l := by
  have hmap : l.map pyToLower = l := by
    conv_rhs => rw [← List.map_id l]
    exact List.map_congr_left fun c hc => pyToLower_of_keep (h c hc)
  have h1 : (l.filter fun c => !spaceChar c) = l :=
    List.filter_eq_self.mpr fun c hc => by
      rw [not_spaceChar_of_keep (h c hc)]; rfl
  have h2 : (l.filter fun c => !dashChar c) = l :=
    List.filter_eq_self.mpr fun c hc => by
      rw [not_dashChar_of_keep (h c hc)]; rfl
  have h3 : l.filter keepChar = l := List.filter_eq_self.mpr h
  simp only [normChars, hmap, h1, h2, h3]

theorem normChars_idem (l : List Char) : normChars (normChars l) = normChars l :=
  normChars_of_all_keep fun _ hc => keepChar_of_mem_normChars hc

/-- The canonical form that erases exactly letter case, whitespace,
underscores, and hyphens: two strings "differ only by case, whitespace,
underscores, or hyphens" precisely when their `caseSepCanon`s agree. -/
def caseSepCanon (s : String) : List Char :=
  (s.toList.map pyToLower).filter fun c => !spaceChar c && !dashChar c

theorem normChars_eq_filter_canon (l : List Char) :
    normChars l = ((l.map pyToLower).filter fun c => !spaceChar c && !dashChar c).filter keepChar := by
  simp only [normChars, List.filter_filter]
  congr 1
  funext c
  cases h1 : keepChar c <;> cases h2 : spaceChar c <;> cases h3 : dashChar c <;> rfl

theorem normalize_eq_of_canon_eq {s t : String}
    (h : caseSepCanon s = caseSepCanon t) : normalize s = normalize t := by
  rw [normalize_eq_mk, normalize_eq_mk, normChars_eq_filter_canon,
    normChars_eq_filter_canon]
  unfold caseSepCanon at h
  rw [h]

/-- Boolean test that the first character list starts the second. -/
def charsStart : List Char → List Char → Bool
  | [], _ => true
  | _ :: _, [] => false
  | a :: as, b :: bs => a == b && charsStart as bs

/-- Boolean contiguous-sublist test on character lists. -/
def charsIn : List Char → List Char → Bool
  | n, [] => n.isEmpty
  | n, b :: bs => charsStart n (b :: bs) || charsIn n bs

/-- Python's substring operator `needle in hay` on strings. -/
def strIn (needle hay : String) : Bool :=
  charsIn needle.toList hay.toList

/-- Python `s.split(sep)[0]` for a one-character separator: the longest prefix
not containing a dot (the whole string when no dot occurs). -/
def pySplitDot (s : String) : String :=
  String.mk (s.toList.takeWhile fun c => c != '.')

/-- Python `str.lower` on a whole string (ASCII model, see `pyToLower`). -/
def pyLower (s : String) : String :=
  String.mk (s.toList.map pyToLower)

/-- Python `sep.join(parts)` for the one-space separator. -/
def joinSpace (parts : List String) : String :=
  String.intercalate (" ") parts

/-- Round half to even on an exact rational, modelling Python's `round` on the
score values of the source (all of which are exactly representable here). -/
def rhe (q : ℚ) : ℤ :=
  if q - ((⌊q⌋ : ℤ) : ℚ) < 1/2 then ⌊q⌋
  else if 1/2 < q - ((⌊q⌋ : ℤ) : ℚ) then ⌊q⌋ + 1
  else if ⌊q⌋ % 2 = 0 then ⌊q⌋ else ⌊q⌋ + 1

/-- Python `round(x, 3)` as used on output scores. -/
def pyRound3 (q : ℚ) : ℚ := (rhe (q * 1000) : ℚ) / 1000

theorem floor_le_rhe (q : ℚ) : ⌊q⌋ ≤ rhe q := by
  unfold rhe; split_ifs <;> omega

theorem rhe_le_floor_add_one (q : ℚ) : rhe q ≤ ⌊q⌋ + 1 := by
  unfold rhe; split_ifs <;> omega

theorem rhe_mono {a b : ℚ} (h : a ≤ b) : rhe a ≤ rhe b := by
  have hf : ⌊a⌋ ≤ ⌊b⌋ := Int.floor_le_floor h
  rcases lt_or_eq_of_le hf with hlt | heq
  · calc rhe a ≤ ⌊a⌋ + 1 := rhe_le_floor_add_one a
      _ ≤ ⌊b⌋ := by omega
      _ ≤ rhe b := floor_le_rhe b
  · unfold rhe
    rw [← heq]
    have hab : a - ((⌊a⌋ : ℤ) : ℚ) ≤ b - ((⌊a⌋ : ℤ) : ℚ) := by linarith
    split_ifs <;> first | omega | linarith

theorem pyRound3_mono {a b : ℚ} (h : a ≤ b) : pyRound3 a ≤ pyRound3 b := by
  unfold pyRound3
  have h1 : rhe (a * 1000) ≤ rhe (b * 1000) := rhe_mono (by linarith)
  have h2 : ((rhe (a * 1000) : ℤ) : ℚ) ≤ ((rhe (b * 1000) : ℤ) : ℚ) := by
    exact_mod_cast h1
  exact div_le_div_of_nonneg_right h2 (by norm_num) |>.trans_eq rfl

theorem pyRound3_nonneg {a : ℚ} (h : 0 ≤ a) : 0 ≤ pyRound3 a := by
  unfold pyRound3
  have h0 : (0 : ℤ) ≤ ⌊a * 1000⌋ := Int.floor_nonneg.mpr (by positivity)
  have h1 : (0 : ℤ) ≤ rhe (a * 1000) := le_trans h0 (floor_le_rhe _)
  have h2 : (0 : ℚ) ≤ ((rhe (a * 1000) : ℤ) : ℚ) := by exact_mod_cast h1
  exact div_nonneg h2 (by norm_num)

/-- C10: normalize is idempotent, so normalize applied to its own output is a
fixed point; any two strings that differ only by letter case, whitespace,
underscores, or hyphens (their case-and-separator canonical forms agree)
normalize to equal tokens; the empty input normalizes to the empty token; and
every character of every output is a lower-cased ASCII letter, an ASCII digit,
or a CJK ideograph. -/
theorem C10_normalize_canonicalization :
    (∀ s : String, normalize (normalize s) = normalize s) ∧
    (∀ s t : String, caseSepCanon s = caseSepCanon t → normalize s = normalize t) ∧
    normalize ("") = ("") ∧
    (∀ s : String, ∀ c ∈ (normalize s).toList, keepChar c = true) := by
  refine ⟨fun s => ?_, fun s t h => normalize_eq_of_canon_eq h, rfl, fun s c hc => ?_⟩
  · rw [normalize_eq_mk s, normalize_eq_mk (String.mk (normChars s.toList))]
    have ht : (String.mk (normChars s.toList)).toList = normChars s.toList := rfl
    rw [ht, normChars_idem]
  · rw [normalize_eq_mk s] at hc
    exact keepChar_of_mem_normChars hc

/-- Witness for C10: a concrete idempotence instance and a concrete pair of
strings differing only in case and separators that normalize equally. -/
theorem C10_normalize_canonicalization_witness :
    normalize (normalize ("Living Room")) = normalize ("Living Room") ∧
    caseSepCanon ("Living_Room") = caseSepCanon ("living room") ∧
    normalize ("Living_Room") = normalize ("living room") :=
  ⟨C10_normalize_canonicalization.1 ("Living Room"), by decide,
    C10_normalize_canonicalization.2.1 ("Living_Room") ("living room") (by decide)⟩

/-- A device request or an entity record.  Both are plain JSON objects in the
source and are read through `dict.get` with an empty-string default, so both
are modelled by one record type whose fields default to the empty string
(`""` plays the role of an absent key).  `level` carries the
string rendering of the level value; `attr_friendly_name` is the nested
`attributes.friendly_name`. -/
structure Obj where
  entity_id : String := ""
  device_type : String := ""
  device_name : String := ""
  device_name_en : String := ""
  friendly_name : String := ""
  attr_friendly_name : String := ""
  floor_name : String := ""
  floor_name_en : String := ""
  floor_type : String := ""
  level : String := ""
  room_name : String := ""
  room_name_en : String := ""
  room_type : String := ""
  service : String := ""
  service_data : String := ""
  deriving DecidableEq, Repr, Inhabited

/-- The four semantic fields of the matcher. -/
inductive FieldKind where
  | floor | room | name | type
  deriving DecidableEq, Repr

/-- `extract_field_candidates` (matcher_engine.py lines 107 to 133). -/
def extract_field_candidates (o : Obj) : FieldKind → List String
  | .floor => [o.floor_name_en, o.floor_type, o.floor_name, o.level]
  | .room => [o.room_name_en, o.room_type, o.room_name]
  | .name => [o.device_name, o.attr_friendly_name]
  | .type => [pyLower o.device_type,
      if o.entity_id != "" then pySplitDot o.entity_id else ""]

/-- `get_primary_field` (matcher_engine.py lines 136 to 142): the first
non-empty candidate value, else the empty string. -/
def get_primary_field (o : Obj) (f : FieldKind) : String :=
  ((extract_field_candidates o f).find? (· != "")).getD ("")

/-- An alias table for one alias class: canonical identifier to alias list,
in insertion order (Python dict order). -/
abbrev AliasMap := List (String × List String)

/-- The per-request alias tables (`aliases` payload entry). -/
structure AliasTables where
  rooms : AliasMap := []
  floors : AliasMap := []
  device_types : AliasMap := []
  deriving DecidableEq, Repr, Inhabited

/-- Python dict assignment `d[k] = v` on an insertion-ordered string map. -/
def dictSet (d : List (String × String)) (k v : String) : List (String × String) :=
  if d.any (·.1 == k) then d.map (fun p => if p.1 == k then (k, v) else p)
  else d ++ [(k, v)]

/-- Python `d.get(k)` on an insertion-ordered string map. -/
def dictFind (d : List (String × String)) (k : String) : Option String :=
  (d.find? (·.1 == k)).map (·.2)

namespace Engine

/-- `GENERIC_NAMES_RAW` (matcher_engine.py lines 85 to 100). -/
def GENERIC_NAMES_RAW : List String := [
  ("light"), ("lights"), ("lamp"), ("lamps"), ("deng"), ("灯"), ("灯光"), ("灯具"), ("照明"),
  ("switch"), ("switches"), ("kaiguan"), ("开关"),
  ("socket"), ("sockets"), ("chazuo"), ("插座"), ("outlet"), ("plug"),
  ("ac"), ("aircon"), ("kongtiao"), ("空调"), ("冷气"), ("climate"),
  ("fan"), ("fans"), ("fengshan"), ("风扇"),
  ("cover"), ("covers"), ("chuanglian"), ("窗帘"), ("curtain"), ("blind"),
  ("lock"), ("locks"), ("suo"), ("锁"), ("门锁"),
  ("camera"), ("cameras"), ("cam"), ("shexiangtou"), ("摄像头"), ("监控"),
  ("sensor"), ("sensors"), ("chuanganqi"), ("传感器"),
  ("temperature"), ("temp"), ("wendu"), ("温度"), ("temperaturesensor"), ("温度传感器"),
  ("humidity"), ("shidu"), ("湿度"), ("湿度传感器"),
  ("motion"), ("renti"), ("人体"), ("motionsensor"), ("运动传感器"), ("yundongchuanganqi"),
  ("occupancy"), ("zhanyong"), ("占用"), ("occupancysensor"), ("占用传感器"), ("zhanyongchuanganqi"),
  ("door"), ("menchuang"), ("门窗"), ("doorsensor"), ("门窗传感器"), ("menci"), ("门磁")]

/-- `GENERIC_NAMES` (line 103): the normalized forms; only membership is used,
so the Python set is a list here. -/
def GENERIC_NAMES : List String := GENERIC_NAMES_RAW.map normalize

/-- `build_alias_reverse_index` (lines 146 to 157). -/
def build_alias_reverse_index (m : AliasMap) : List (String × String) :=
  m.foldl (fun idx p =>
    let cn := normalize p.1
    if cn ≠ "" then
      p.2.foldl (fun idx2 a =>
        let an := normalize a
        if an ≠ "" then dictSet idx2 an cn else idx2) (dictSet idx cn cn)
    else idx) []

/-- The module-level `_alias_indices` (line 161): one reverse index per alias
class, rebuilt by `process`. -/
structure AliasIndices where
  rooms : List (String × String) := []
  floors : List (String × String) := []
  device_types : List (String × String) := []
  deriving DecidableEq, Repr, Inhabited

/-- `expand_alias_fast` (lines 164 to 174) for one alias class.  In `process`
all three classes are always present in `_alias_indices`, so the
`alias_type not in _alias_indices` escape never fires there. -/
def expand_alias_fast (idx : List (String × String)) (value : String) : List String :=
  if value = "" then []
  else
    let v := normalize value
    match dictFind idx v with
    | some c => if c = "" then [v] else [c]
    | none => [v]

/-- `field_similarity` (lines 194 to 229).  The `None`-candidate filter of the
source is vacuous here (candidates are strings), the result cache memoizes a
pure function, and the TF-IDF slow path is the oracle `tf` applied to the
normalized query and the normalized non-empty candidates, exactly the corpus
the source hands to the vectorizer. -/
def field_similarity (tf : String → List String → ℚ)
    (query : String) (candidates : List String) : ℚ :=
  let q := normalize query
  let cands := ((candidates.filter (· != "")).map normalize).filter (· != "")
  if q = "" ∨ cands = [] then 0
  else if q ∈ cands then 1
  else if cands.any (fun c => strIn q c || strIn c q) then 95/100
  else tf q cands

/-- Inner loop of `detect_location_from_name` over the room alias table. -/
def detectLoc (n : String) : AliasMap → String
  | [] => ""
  | (rc, als) :: rest =>
    if normalize rc ≠ "" ∧ strIn (normalize rc) n then rc
    else if als.any (fun a => normalize a != "" && strIn (normalize a) n) then rc
    else detectLoc n rest

/-- `detect_location_from_name` (lines 297 to 308). -/
def detect_location_from_name (name_q : String) (room_aliases : AliasMap) : String :=
  let n := normalize name_q
  if n = "" then "" else detectLoc n room_aliases

/-- Weight configuration with the source defaults (line 394). -/
structure Weights where
  F : ℚ := 15/100
  R : ℚ := 40/100
  N : ℚ := 30/100
  T : ℚ := 15/100
  deriving DecidableEq, Repr, Inhabited

/-- Threshold configuration with the source defaults (line 369). -/
structure Thresholds where
  floor : ℚ := 7/10
  room : ℚ := 7/10
  type : ℚ := 65/100
  name : ℚ := 8/10
  deriving DecidableEq, Repr, Inhabited

/-- The `config` payload entry with its defaults (lines 369, 394, 650, 651). -/
structure Cfg where
  weights : Weights := {}
  thresholds : Thresholds := {}
  topK : ℕ := 100
  disambiguationGap : ℚ := 8/100
  deriving DecidableEq, Repr, Inhabited

/-- The per-field evidence dict returned with every score (lines 386 to 391
and 403 to 408): query text and similarity score for each field. -/
structure Ev where
  floor_text : String
  floor_sc : ℚ
  room_text : String
  room_sc : ℚ
  name_text : String
  name_sc : ℚ
  type_text : String
  type_sc : ℚ
  deriving DecidableEq, Repr

/-- `floor_q` of `compute_scores_for_device` (line 319). -/
def floor_query (dev : Obj) : String := get_primary_field dev .floor

/-- `room_q` (line 320). -/
def room_query (dev : Obj) : String := get_primary_field dev .room

/-- `name_q` (line 321). -/
def name_query (dev : Obj) : String := get_primary_field dev .name

/-- `type_q` (lines 322 to 324 and the name-implies-type inference of lines
339 to 345): the primary type field, else the domain of the service
identifier, else a temperature or humidity type read off the device name. -/
def type_query (dev : Obj) : String :=
  let t0 := get_primary_field dev FieldKind.type
  let t1 := if t0 = "" ∧ dev.service ≠ "" then pySplitDot dev.service else t0
  if name_query dev ≠ "" ∧ t1 = "" then
    let nn := normalize (name_query dev)
    if strIn ("temperature") nn || strIn ("wendu") nn || strIn ("温度") (name_query dev) then
      ("temperature")
    else if strIn ("humidity") nn || strIn ("shidu") nn || strIn ("湿度") (name_query dev) then
      ("humidity")
    else t1
  else t1

/-- `floor_score` (line 333). -/
def floor_score (tf : String → List String → ℚ) (dev e : Obj) : ℚ :=
  if floor_query dev ≠ "" then
    field_similarity tf (floor_query dev) (extract_field_candidates e .floor)
  else 0

/-- `room_score` (line 334). -/
def room_score (tf : String → List String → ℚ) (dev e : Obj) : ℚ :=
  if room_query dev ≠ "" then
    field_similarity tf (room_query dev) (extract_field_candidates e .room)
  else 0

/-- `name_score` (line 335). -/
def name_score (tf : String → List String → ℚ) (dev e : Obj) : ℚ :=
  if name_query dev ≠ "" then
    field_similarity tf (name_query dev) (extract_field_candidates e .name)
  else 0

/-- `type_score` (lines 348 to 357): alias-expanded query side against the
alias-expanded entity side. -/
def type_score (tf : String → List String → ℚ) (idx : AliasIndices) (dev e : Obj) : ℚ :=
  let tq := type_query dev
  let type_cands := if tq ≠ "" then expand_alias_fast idx.device_types tq else []
  let e_types_norm :=
    (extract_field_candidates e FieldKind.type).flatMap (expand_alias_fast idx.device_types)
  field_similarity tf
    (if type_cands ≠ [] then joinSpace type_cands else tq)
    (if e_types_norm ≠ [] then [joinSpace e_types_norm]
     else extract_field_candidates e FieldKind.type)

/-- `location_bonus` (lines 359 to 366): 0.4 when the device name embeds a
room reference whose normal form equals the entity's primary room. -/
def location_bonus (rooms : AliasMap) (dev e : Obj) : ℚ :=
  if name_query dev ≠ "" then
    let ex := detect_location_from_name (name_query dev) rooms
    if ex ≠ "" then
      if normalize ex ≠ "" ∧ normalize ex = normalize (get_primary_field e .room) then 4/10
      else 0
    else 0
  else 0

/-- `is_generic` (line 370). -/
def is_generic (dev : Obj) : Bool :=
  name_query dev != "" && GENERIC_NAMES.contains (normalize (name_query dev))

/-- `compute_scores_for_device` (matcher_engine.py lines 312 to 408): the
four field scores, the gating policy (the room gate is the hard-coded
near-exact 0.98 of line 378; the other gates use the configured thresholds),
the -1 sentinel on rejection, and otherwise the weighted composite with the
0.90 floor substitute, the 0.85 substitute for generic names, and the
location bonus. -/
def compute_scores_for_device (tf : String → List String → ℚ) (idx : AliasIndices)
    (dev e : Obj) (aliases : AliasTables) (cfg : Cfg) : ℚ × Ev :=
  let fq := floor_query dev
  let rq := room_query dev
  let nq := name_query dev
  let tq := type_query dev
  let fs := floor_score tf dev e
  let rs := room_score tf dev e
  let ns := name_score tf dev e
  let ts := type_score tf idx dev e
  let ev : Ev := { floor_text := fq, floor_sc := fs, room_text := rq, room_sc := rs,
                   name_text := nq, name_sc := ns, type_text := tq, type_sc := ts }
  let floor_pass : Bool := fq == "" || decide (cfg.thresholds.floor ≤ fs)
  let room_pass : Bool := rq == "" || decide ((98/100 : ℚ) ≤ rs)
  let type_pass : Bool := tq == "" || decide (cfg.thresholds.type ≤ ts)
  let name_pass : Bool := (nq == "" || is_generic dev) || decide (cfg.thresholds.name ≤ ns)
  if !(floor_pass && room_pass && type_pass && name_pass) then (-1, ev)
  else
    let nsf := if is_generic dev then (85/100 : ℚ) else ns
    let fsw := if fq ≠ "" then fs else 90/100
    let base := cfg.weights.F * fsw + cfg.weights.R * rs + cfg.weights.N * nsf +
      cfg.weights.T * ts + location_bonus aliases.rooms dev e
    (base, ev)

end Engine

namespace Engine

def tfZero : String → List String → ℚ := fun _ _ => 0

def scnDev : Obj := { room_name_en := "living_room", device_type := "light" }

def scnLiving : Obj :=
  { entity_id := "light.living_lamp", room_name_en := "living_room", floor_name := "1" }

def scnBedroom : Obj :=
  { entity_id := "light.bedroom_lamp", room_name_en := "bedroom", floor_name := "1" }


end Engine

namespace Engine

/-- The whitespace characters removed by Python `str.strip`. -/
def pyStripChars : List Char := [' ', '\t', '\n', '\r', '\x0b', '\x0c']

/-- Python `str.strip()`. -/
def pyStrip (s : String) : String :=
  String.mk (((s.toList.dropWhile (fun c => pyStripChars.contains c)).reverse.dropWhile
    (fun c => pyStripChars.contains c)).reverse)

/-- The local `norm` helper of `loose_suggestions` (lines 421 to 424): lower,
remove underscore, hyphen and space, strip.  Unlike `normalize` it keeps
punctuation and other characters. -/
def looseNorm (text : String) : String :=
  if text = "" then ""
  else pyStrip (String.mk ((text.toList.map pyToLower).filter
    (fun c => !(c == '_' || c == '-' || c == ' '))))

/-- The per-entity keep test of the `loose_suggestions` filtering loop
(lines 430 to 457), written as one boolean over the two location fields:
with a requested floor the entity must carry a floor that matches in either
containment direction; with a requested room, an entity with a room must
match it, and an entity without a room survives exactly when the floor
requirement (already enforced above) does not fail. -/
def looseKeep (rf rr : String) (e : Obj) : Bool :=
  let ef := looseNorm (get_primary_field e .floor)
  let er := looseNorm (get_primary_field e .room)
  let floorOk := strIn rf ef || strIn ef rf
  let roomOk := strIn rr er || strIn er rr
  (rf == "" || (ef != "" && floorOk)) &&
    (rr == "" || (if er == "" then !(rf != "" && !floorOk) else roomOk))

/-- The relaxed, ungated weighted score of `loose_suggestions`
(lines 471 to 474): the four field similarities under the default weights. -/
def relaxed_score (tf : String → List String → ℚ) (dev e : Obj) : ℚ :=
  15/100 * field_similarity tf (get_primary_field dev .floor) (extract_field_candidates e .floor) +
  40/100 * field_similarity tf (get_primary_field dev .room) (extract_field_candidates e .room) +
  30/100 * field_similarity tf (get_primary_field dev .name) (extract_field_candidates e .name) +
  15/100 * field_similarity tf (get_primary_field dev FieldKind.type)
    (extract_field_candidates e FieldKind.type)

/-- One suggestion record (lines 478 to 484). -/
structure Suggestion where
  entity_id : String
  device_name : String
  room : String
  floor : String
  reason_score : ℚ
  deriving DecidableEq, Repr

/-- Lines 478 to 484: the lightweight hint built from a pool entity and its
relaxed score, with the score rounded to three digits. -/
def mkSuggestion (e : Obj) (s : ℚ) : Suggestion :=
  { entity_id := e.entity_id, device_name := get_primary_field e .name,
    room := get_primary_field e .room, floor := get_primary_field e .floor,
    reason_score := pyRound3 s }

/-- `loose_suggestions` (matcher_engine.py lines 411 to 484).  `cfg` is
accepted and unused, as in the source.  Python's stable descending sort is
modelled by the stable `insertionSort`. -/
def loose_suggestions (tf : String → List String → ℚ) (dev : Obj)
    (pool : List Obj) (cfg : Cfg) : List Suggestion :=
  let rf := looseNorm (get_primary_field dev .floor)
  let rr := looseNorm (get_primary_field dev .room)
  let filtered_pool := pool.filter (looseKeep rf rr)
  if rf ≠ "" ∧ filtered_pool = [] then []
  else
    let items := filtered_pool.map (fun e => (e, relaxed_score tf dev e))
    let sorted := List.insertionSort (fun a b => (b.2 : ℚ) ≤ a.2) items
    (sorted.take 3).map (fun p => mkSuggestion p.1 p.2)

/-- Lookup in the type index, `index.get(k, [])`. -/
def tiGet (idx : List (String × List Obj)) (k : String) : List Obj :=
  ((idx.find? (·.1 == k)).map (·.2)).getD []

/-- Key membership in the type index. -/
def tiHasKey (idx : List (String × List Obj)) (k : String) : Bool :=
  idx.any (·.1 == k)

/-- Append an entity to the bucket of a key, creating the bucket if absent. -/
def tiAppend (idx : List (String × List Obj)) (k : String) (e : Obj) :
    List (String × List Obj) :=
  if tiHasKey idx k then idx.map (fun p => if p.1 == k then (p.1, p.2 ++ [e]) else p)
  else idx ++ [(k, [e])]

/-- `build_type_index` (lines 487 to 509): group by normalized domain, and by
normalized device type when distinct from the domain (with the source's
membership check before the second append). -/
def build_type_index (entities : List Obj) : List (String × List Obj) :=
  entities.foldl (fun idx e =>
    let domain := if e.entity_id != "" then pySplitDot e.entity_id else ""
    let idx1 :=
      if domain ≠ "" then
        let dn := normalize domain
        if dn ≠ "" then tiAppend idx dn e else idx
      else idx
    if e.device_type ≠ "" then
      let tn := normalize e.device_type
      if tn ≠ "" ∧ tn ≠ normalize domain then
        let idx2 := if tiHasKey idx1 tn then idx1 else idx1 ++ [(tn, [])]
        if e ∈ tiGet idx2 tn then idx2 else tiAppend idx2 tn e
      else idx1
    else idx1) []

/-- `filter_candidates` (matcher_engine.py lines 233 to 287): type or
service-domain bucket with fallback to the whole pool, then room narrowing
above 50 candidates and floor narrowing above 30, each applied only when the
narrowed subset is non-empty. -/
def filter_candidates (dev : Obj) (entities : List Obj)
    (type_index : List (String × List Obj)) : List Obj :=
  let type_q := get_primary_field dev FieldKind.type
  let service_domain := if dev.service ≠ "" then pySplitDot dev.service else ""
  let pool :=
    if type_q ≠ "" then
      let p0 := tiGet type_index (normalize type_q)
      let p1 := if p0 = [] ∧ service_domain ≠ "" then
          tiGet type_index (normalize service_domain)
        else p0
      if p1 = [] then entities else p1
    else if service_domain ≠ "" then
      let p0 := tiGet type_index (normalize service_domain)
      if p0 = [] then entities else p0
    else entities
  let pool2 :=
    if 50 < pool.length then
      let room_q := get_primary_field dev .room
      if room_q ≠ "" then
        let rn := normalize room_q
        let rf := pool.filter (fun e => strIn rn (normalize (get_primary_field e .room)))
        if rf ≠ [] then rf else pool
      else pool
    else pool
  if 30 < pool2.length then
    let floor_q := get_primary_field dev .floor
    if floor_q ≠ "" then
      let fn := normalize floor_q
      let ff := pool2.filter (fun e => strIn fn (normalize (get_primary_field e .floor)))
      if ff ≠ [] then ff else pool2
    else pool2
  else pool2

/-- One ranked target of an action (lines 694 to 702). -/
structure Target where
  entity_id : String
  device_type : String
  device_name : String
  floor : String
  room : String
  score : ℚ
  matched : Ev
  deriving DecidableEq, Repr

/-- The echoed request of an action (lines 686 to 693); Python renders absent
optional values as `None`, modelled by the empty string.  The opaque
`automation` passthrough is not modelled. -/
structure RequestEcho where
  floor : String
  room : String
  device_name : String
  device_type : String
  service : String
  service_data : String
  deriving DecidableEq, Repr

/-- One `action` entry of the output (lines 685 to 707). -/
structure Action where
  request : RequestEcho
  targets : List Target
  disambiguation_required : Bool
  warnings : List String
  suggestions_if_empty : List Suggestion
  deriving DecidableEq, Repr

/-- One `matched_devices` entry (lines 675 to 679). -/
structure MatchedDevice where
  entity_id : String
  service : String
  service_data : String
  deriving DecidableEq, Repr

/-- The output of `process` (lines 643 to 648). -/
structure Output where
  intent : String
  user_input : String
  actions : List Action
  matched_devices : List MatchedDevice
  deriving DecidableEq, Repr

/-- One request batch after envelope extraction (the fields read by `process`
in its format-3 branch, lines 625 to 630; the other two envelopes feed the
same fields). -/
structure ProcessInput where
  intent_devices : List Obj := []
  entities : List Obj := []
  user_query : String := ""
  intent : String := "Best Match"
  aliases : AliasTables := {}
  config : Cfg := {}
  deriving DecidableEq, Repr, Inhabited

/-- Lines 694 to 702: a ranked target from a scored entity. -/
def mkTarget (it : Obj × ℚ × Ev) : Target :=
  { entity_id := it.1.entity_id, device_type := pyLower it.1.device_type,
    device_name := get_primary_field it.1 .name, floor := get_primary_field it.1 .floor,
    room := get_primary_field it.1 .room, score := pyRound3 it.2.1, matched := it.2.2 }

/-- The body of the per-device loop of `process` (lines 653 to 711): filter
the pool, score it, keep the non-negative scores, sort descending (stable),
truncate to `topK`, and generate suggestions only when nothing survived. -/
def perDevice (tf : String → List String → ℚ) (idx : AliasIndices)
    (aliases : AliasTables) (cfg : Cfg) (entities : List Obj)
    (type_index : List (String × List Obj)) (dev : Obj) :
    Action × List MatchedDevice :=
  let pool := filter_candidates dev entities type_index
  let scored := (pool.map (fun e => (e, compute_scores_for_device tf idx dev e aliases cfg))).filter
    (fun x => decide (0 ≤ x.2.1))
  let sorted := List.insertionSort (fun a b => (b.2.1 : ℚ) ≤ a.2.1) scored
  let top := sorted.take cfg.topK
  let suggestions := if top = [] then loose_suggestions tf dev pool cfg else []
  let matched := top.map (fun it =>
    ({ entity_id := it.1.entity_id, service := dev.service,
       service_data := dev.service_data } : MatchedDevice))
  let action : Action := {
    request :=
      { floor := get_primary_field dev .floor, room := get_primary_field dev .room,
        device_name := get_primary_field dev .name,
        device_type := get_primary_field dev FieldKind.type,
        service := dev.service, service_data := dev.service_data },
    targets := top.map mkTarget,
    disambiguation_required :=
      match top with
      | a :: b :: _ => decide (a.2.1 - b.2.1 < cfg.disambiguationGap)
      | _ => false,
    warnings := [],
    suggestions_if_empty := suggestions }
  (action, matched)

/-- Lines 634 to 638: the three alias reverse indices rebuilt from the
payload's alias tables. -/
def build_indices (aliases : AliasTables) : AliasIndices :=
  { rooms := build_alias_reverse_index aliases.rooms,
    floors := build_alias_reverse_index aliases.floors,
    device_types := build_alias_reverse_index aliases.device_types }

/-- `process` (matcher_engine.py lines 571 to 713) on an extracted batch.
`prev` is the value of the module-level `_alias_indices` left over from any
earlier batch; the returned first component is the state after this batch.
The source overwrites the global from the payload (line 634) before any
alias lookup, which is why `prev` is never consulted. -/
def process (tf : String → List String → ℚ) (prev : AliasIndices)
    (p : ProcessInput) : AliasIndices × Output :=
  let idx := build_indices p.aliases
  let type_index := build_type_index p.entities
  let per := p.intent_devices.map (perDevice tf idx p.aliases p.config p.entities type_index)
  (idx, { intent := p.intent, user_input := p.user_query,
          actions := per.map (·.1),
          matched_devices := per.flatMap (·.2) })

end Engine

namespace Matcher

/-- Python `a or b` on strings (first truthy value). -/
def pyOr (a b : String) : String := if a ≠ "" then a else b

/-- `WEIGHTS` (matcher.py lines 21 to 26). -/
def wF : ℚ := 15/100

/-- Room weight, the dominant one. -/
def wR : ℚ := 40/100

/-- Name weight. -/
def wN : ℚ := 30/100

/-- Type weight. -/
def wT : ℚ := 15/100

/-- `THRESHOLDS` floor entry (matcher.py line 30). -/
def THRESHOLD_floor : ℚ := 7/10

/-- `THRESHOLDS` room entry (line 31). -/
def THRESHOLD_room : ℚ := 7/10

/-- `THRESHOLDS` type entry (line 32); the type gate of `score_entity`
actually uses a hard 0.90, see line 492. -/
def THRESHOLD_type : ℚ := 65/100

/-- `THRESHOLDS` name entry (line 33). -/
def THRESHOLD_name : ℚ := 45/100

/-- `LOCATION_BONUS` (line 39). -/
def LOCATION_BONUS : ℚ := 4/10

/-- `GENERIC_DEVICE_NAMES` (matcher.py lines 42 to 63); raw entries, matched
against the normalized name. -/
def GENERIC_DEVICE_NAMES : List String := [
  ("light"), ("lights"), ("lamp"), ("lamps"), ("deng"), ("灯"), ("灯光"), ("灯具"), ("照明"),
  ("switch"), ("switches"), ("kaiguan"), ("开关"),
  ("socket"), ("sockets"), ("chazuo"), ("插座"), ("outlet"), ("plug"),
  ("ac"), ("aircon"), ("kongtiao"), ("空调"), ("冷气"), ("climate"),
  ("fan"), ("fans"), ("fengshan"), ("风扇"),
  ("cover"), ("covers"), ("chuanglian"), ("窗帘"), ("curtain"), ("blind"),
  ("lock"), ("locks"), ("suo"), ("锁"), ("门锁"),
  ("camera"), ("cameras"), ("cam"), ("shexiangtou"), ("摄像头"), ("监控"),
  ("sensor"), ("sensors"), ("chuanganqi"), ("传感器"),
  ("temperature"), ("temp"), ("wendu"), ("温度"), ("temperaturesensor"), ("温度传感器"),
  ("humidity"), ("shidu"), ("湿度"), ("湿度传感器"),
  ("motion"), ("renti"), ("人体")]

/-- `FLOOR_ALIASES` (matcher.py lines 66 to 70). -/
def FLOOR_ALIASES : AliasMap := [
  (("1"), [("一楼"), ("1楼"), ("yilou"), ("first"), ("firstfloor"), ("first_floor"), ("ground")]),
  (("2"), [("二楼"), ("2楼"), ("erlou"), ("second"), ("secondfloor"), ("second_floor")]),
  (("3"), [("三楼"), ("3楼"), ("sanlou"), ("third"), ("thirdfloor"), ("third_floor")])]

/-- `ROOM_ALIASES` (matcher.py lines 73 to 85). -/
def ROOM_ALIASES : AliasMap := [
  (("living_room"), [("客厅"), ("keting"), ("living"), ("livingroom"), ("living_room"), ("lounge")]),
  (("bedroom"), [("卧室"), ("woshi"), ("bedroom"), ("bed_room")]),
  (("master_bedroom"), [("主卧"), ("zhuwo"), ("master"), ("masterbedroom"), ("master_bedroom")]),
  (("kitchen"), [("厨房"), ("chufang"), ("kitchen")]),
  (("bathroom"), [("浴室"), ("卫生间"), ("yushi"), ("weishengjian"), ("bathroom"), ("washroom")]),
  (("study"), [("书房"), ("shufang"), ("study"), ("office")]),
  (("dining_room"), [("餐厅"), ("canting"), ("dining"), ("diningroom"), ("dining_room")]),
  (("garage"), [("车库"), ("cheku"), ("garage")]),
  (("garden"), [("花园"), ("后院"), ("huayuan"), ("houyuan"), ("garden"), ("backyard"), ("yard")]),
  (("balcony"), [("阳台"), ("yangtai"), ("balcony")]),
  (("entertainment"), [("娱乐室"), ("影音室"), ("yuleshi"), ("entertainment"), ("tvroom"), ("tv_room")])]

/-- `HA_DOMAIN_ALIASES` (matcher.py lines 88 to 100). -/
def HA_DOMAIN_ALIASES : AliasMap := [
  (("light"), [("light"), ("lights"), ("lamp"), ("deng"), ("灯")]),
  (("switch"), [("switch"), ("kaiguan"), ("开关"), ("socket"), ("chazuo"), ("插座")]),
  (("climate"), [("climate"), ("ac"), ("aircon"), ("kongtiao"), ("空调")]),
  (("fan"), [("fan"), ("fengshan"), ("风扇")]),
  (("cover"), [("cover"), ("chuanglian"), ("窗帘")]),
  (("camera"), [("camera"), ("cam"), ("shexiangtou"), ("摄像头")]),
  (("sensor"), [("sensor"), ("chuanganqi"), ("传感器")]),
  (("binary_sensor"), [("binary_sensor"), ("binarysensor"), ("presence"), ("存在"), ("在家")]),
  (("occupancy"), [("occupancy"), ("occupied"), ("占用"), ("占用传感器")]),
  (("motion"), [("motion"), ("运动"), ("运动传感器"), ("人体传感器")])]

/-- `fuzzy_match` (matcher.py lines 118 to 124). -/
def fuzzy_match (a b : String) : Bool :=
  if a = "" ∨ b = "" then false else normalize a == normalize b

/-- Python `str.isdigit` on ASCII digits. -/
def pyIsDigitStr (s : String) : Bool :=
  s != "" && s.toList.all (·.isDigit)

/-- Lookup loop of `normalize_floor` (lines 142 to 147): the normalized input
against the raw level key, then against each normalized alias. -/
def floorLookup (n : String) : AliasMap → Option String
  | [] => none
  | (level, als) :: rest =>
    if n == level then some level
    else if als.any (fun a => n == normalize a) then some level
    else floorLookup n rest

/-- `normalize_floor` (matcher.py lines 129 to 149). -/
def normalize_floor (input_text : String) : String :=
  if input_text = "" then ""
  else
    let n := normalize input_text
    if pyIsDigitStr n then n
    else (floorLookup n FLOOR_ALIASES).getD n

/-- Lookup loop shared by `normalize_room` and `normalize_domain`: the
normalized input against the normalized key, then each normalized alias. -/
def aliasKeyLookup (n : String) : AliasMap → Option String
  | [] => none
  | (k, als) :: rest =>
    if n == normalize k then some k
    else if als.any (fun a => n == normalize a) then some k
    else aliasKeyLookup n rest

/-- `normalize_room` (matcher.py lines 152 to 168). -/
def normalize_room (input_text : String) : String :=
  if input_text = "" then ""
  else (aliasKeyLookup (normalize input_text) ROOM_ALIASES).getD (normalize input_text)

/-- `normalize_domain` (matcher.py lines 171 to 187); the fallback is the
lower-cased raw input, not its normal form. -/
def normalize_domain (input_text : String) : String :=
  if input_text = "" then ""
  else (aliasKeyLookup (normalize input_text) HA_DOMAIN_ALIASES).getD (pyLower input_text)

/-- `is_generic_device_name` (matcher.py lines 190 to 196). -/
def is_generic_device_name (name : String) : Bool :=
  if name = "" then false else GENERIC_DEVICE_NAMES.contains (normalize name)

/-- `slot_similarity` (matcher.py lines 248 to 285), score component.  The
exact-match fast path scans the non-empty candidates; the TF-IDF fallback is
the oracle applied to the normalized query and the normalized candidate texts
(the best — maximal — cosine similarity the source extracts by argmax). -/
def slot_similarity (tfM : String → List String → ℚ)
    (query : String) (cands : List String) : ℚ :=
  let q := normalize query
  if q = "" then 0
  else
    let valid := cands.filter (· != "")
    if valid = [] then 0
    else if valid.any (fun c => normalize c == q) then 1
    else tfM q (valid.map normalize)

/-- Loop of `extract_location_from_name` over `ROOM_ALIASES`
(lines 303 to 311). -/
def extractLocLoop (nn : String) : AliasMap → Bool × String
  | [] => (false, "")
  | (rt, als) :: rest =>
    if strIn (normalize rt) nn then (true, rt)
    else if als.any (fun a => strIn (normalize a) nn) then (true, rt)
    else extractLocLoop nn rest

/-- `extract_location_from_name` (matcher.py lines 290 to 313). -/
def extract_location_from_name (device_name : String) : Bool × String :=
  if device_name = "" then (false, "")
  else extractLocLoop (normalize device_name) ROOM_ALIASES

/-- The result of `score_entity`: score, per-field evidence, warnings. -/
structure MResult where
  score : ℚ
  ev : Engine.Ev
  warnings : List String
  deriving DecidableEq, Repr

/-- The warning string of the domain-consistency check (line 544);
`entity.get('entity_id', 'unknown')` with the absent key modelled by the
empty string. -/
def mismatchMsg (e : Obj) : String :=
  "Service domain mismatch for " ++ (if e.entity_id ≠ "" then e.entity_id else ("unknown"))

/-- `floor_q` of `score_entity` (matcher.py line 334). -/
def floor_query (device : Obj) : String :=
  pyOr device.floor_name_en (pyOr device.floor_type device.floor_name)

/-- `room_q` (line 373). -/
def room_query (device : Obj) : String :=
  pyOr device.room_name_en (pyOr device.room_type device.room_name)

/-- `name_q` (line 409). -/
def name_query (device : Obj) : String :=
  pyOr device.device_name_en device.device_name

/-- `type_q` (lines 441 to 443). -/
def type_query (device : Obj) : String :=
  let t0 := pyLower device.device_type
  if t0 = "" ∧ device.service ≠ "" then pyLower (pySplitDot device.service) else t0

/-- The entity's domain (line 446). -/
def entity_domain (entity : Obj) : String :=
  if entity.entity_id ≠ "" then pySplitDot entity.entity_id else ""

/-- The floor phase of `score_entity` (lines 332 to 363): fuzzy match, then
alias-normalized equality (against the raw `level` value on one side), then
the similarity fallback. -/
def floor_score_fn (tfM : String → List String → ℚ) (device entity : Obj) : ℚ :=
  let floor_q := floor_query device
  if floor_q = "" then 0
  else if fuzzy_match floor_q entity.floor_name || fuzzy_match floor_q entity.floor_name_en ||
      fuzzy_match floor_q entity.floor_type || fuzzy_match floor_q entity.level then 1
  else
    let nfq := normalize_floor floor_q
    if nfq == normalize_floor entity.floor_name || nfq == normalize_floor entity.floor_name_en ||
        nfq == normalize_floor entity.floor_type || nfq == entity.level then 1
    else slot_similarity tfM floor_q
      [entity.floor_name, entity.floor_name_en, entity.floor_type, entity.level]

/-- The room phase (lines 371 to 399). -/
def room_score_fn (tfM : String → List String → ℚ) (device entity : Obj) : ℚ :=
  let room_q := room_query device
  if room_q = "" then 0
  else if fuzzy_match room_q entity.room_name || fuzzy_match room_q entity.room_name_en ||
      fuzzy_match room_q entity.room_type then 1
  else
    let nrq := normalize_room room_q
    if nrq == normalize_room entity.room_name || nrq == normalize_room entity.room_name_en ||
        nrq == normalize_room entity.room_type then 1
    else slot_similarity tfM room_q [entity.room_name, entity.room_name_en, entity.room_type]

/-- The name phase (lines 407 to 413). -/
def name_sim_fn (tfM : String → List String → ℚ) (device entity : Obj) : ℚ :=
  slot_similarity tfM (name_query device)
    [entity.device_name, pyOr entity.attr_friendly_name entity.friendly_name]

/-- The location-extraction bonus (lines 415 to 432). -/
def location_bonus_fn (device entity : Obj) : ℚ :=
  let name_q := name_query device
  if name_q ≠ "" then
    let p := extract_location_from_name name_q
    if p.1 && p.2 != "" then
      if p.2 == normalize_room entity.room_name || p.2 == normalize_room entity.room_name_en ||
          p.2 == normalize_room entity.room_type then LOCATION_BONUS
      else 0
    else 0
  else 0

/-- The type phase (lines 440 to 470): exact device-type match, the
independent occupancy and motion categories, domain-level match, then the
similarity fallback. -/
def type_score_fn (tfM : String → List String → ℚ) (device entity : Obj) : ℚ :=
  let type_q := type_query device
  let e_type := pyLower entity.device_type
  let e_domain := entity_domain entity
  let norm_type_q := normalize_domain type_q
  let norm_e_domain := normalize_domain e_domain
  let norm_e_type := normalize_domain e_type
  if norm_type_q = "" then 0
  else if norm_type_q == norm_e_type || normalize type_q == normalize e_type then 1
  else if norm_type_q == ("occupancy") || norm_type_q == ("motion") then 0
  else if norm_type_q == norm_e_domain || fuzzy_match type_q e_domain ||
      fuzzy_match type_q e_type then 1
  else slot_similarity tfM norm_type_q [norm_e_domain, e_type]

/-- `floor_pass` (matcher.py line 489). -/
def floor_pass_fn (tfM : String → List String → ℚ) (device entity : Obj) : Bool :=
  if floor_query device ≠ "" then decide (THRESHOLD_floor ≤ floor_score_fn tfM device entity)
  else true

/-- `room_pass` (line 490). -/
def room_pass_fn (tfM : String → List String → ℚ) (device entity : Obj) : Bool :=
  if room_query device ≠ "" then decide (THRESHOLD_room ≤ room_score_fn tfM device entity)
  else true

/-- `name_pass` (line 491). -/
def name_pass_fn (tfM : String → List String → ℚ) (device entity : Obj) : Bool :=
  if name_query device ≠ "" then decide (THRESHOLD_name ≤ name_sim_fn tfM device entity)
  else true

/-- `type_pass` (line 492): a hard 0.90, not the configured type threshold. -/
def type_pass_fn (tfM : String → List String → ℚ) (device entity : Obj) : Bool :=
  if type_query device ≠ "" then decide ((90/100 : ℚ) ≤ type_score_fn tfM device entity)
  else true

/-- The rejection decision of `score_entity` outside the all-devices mode
(matcher.py lines 497 to 514): the floor-only mode demands the floor gate,
the type gate and a 0.95 type score; a specific (non-generic) name demands
the room, name and type gates plus the floor gate when a floor was
requested; generic or absent names demand the room and type gates plus the
floor gate when a floor was requested. -/
def reject_fn (tfM : String → List String → ℚ) (device entity : Obj) : Bool :=
  let floor_pass := floor_pass_fn tfM device entity
  let room_pass := room_pass_fn tfM device entity
  let name_pass := name_pass_fn tfM device entity
  let type_pass := type_pass_fn tfM device entity
  let floor_q := floor_query device
  let room_q := room_query device
  let name_q := name_query device
  let type_q := type_query device
  let floor_only_mode := floor_q != "" && room_q == "" && name_q == "" && type_q != ""
  if floor_only_mode then
    !floor_pass || !type_pass || decide (type_score_fn tfM device entity < 95/100)
  else if name_q != "" && !is_generic_device_name name_q then
    (!room_pass || !name_pass || !type_pass) || (floor_q != "" && !floor_pass)
  else
    (!room_pass || !type_pass) || (floor_q != "" && !floor_pass)

/-- `score_entity` (matcher.py lines 318 to 546): the four field phases, the
location extraction bonus, the all-devices and floor-only special modes, the
gating, the weighted base with the 0.90 floor and 0.85 name substitutes, the
near-exact bonuses, and the domain-consistency bonus or warning. -/
def score_entity (tfM : String → List String → ℚ) (device entity : Obj) : MResult :=
  let floor_q := floor_query device
  let room_q := room_query device
  let name_q := name_query device
  let type_q := type_query device
  let floor_score := floor_score_fn tfM device entity
  let room_score := room_score_fn tfM device entity
  let name_sim := name_sim_fn tfM device entity
  let type_score := type_score_fn tfM device entity
  let location_match_bonus := location_bonus_fn device entity
  let norm_e_domain := normalize_domain (entity_domain entity)
  let ev : Engine.Ev :=
    { floor_text := floor_q, floor_sc := floor_score,
      room_text := room_q, room_sc := room_score, name_text := name_q, name_sc := name_sim,
      type_text := type_q, type_sc := type_score }
  let is_all_devices := floor_q == "" && room_q == "" && name_q == "" && type_q != ""
  if is_all_devices then
    if type_q != "" && decide ((90/100 : ℚ) ≤ type_score) then
      { score := 80/100, ev := ev, warnings := [] }
    else { score := -1, ev := ev, warnings := [] }
  else
    let is_generic_name := is_generic_device_name name_q
    if reject_fn tfM device entity then { score := -1, ev := ev, warnings := [] }
    else
      let floor_score_weight := if floor_q ≠ "" then floor_score else 90/100
      let name_score_val := if name_q != "" && !is_generic_name then name_sim else 85/100
      let base0 := wF * floor_score_weight + wR * room_score + wN * name_score_val +
        wT * type_score
      let base1 := base0 + location_match_bonus
      let base2 := base1 +
        (if room_q != "" && decide ((98/100 : ℚ) ≤ room_score) then (1/10 : ℚ) else 0)
      let base3 := base2 +
        (if name_q != "" && !is_generic_name && decide ((98/100 : ℚ) ≤ name_sim) then
          (1/20 : ℚ) else 0)
      let base4 := base3 +
        (if floor_q != "" && decide ((98/100 : ℚ) ≤ floor_score) then (3/100 : ℚ) else 0)
      if device.service ≠ "" then
        let svc_domain := pyLower (pySplitDot device.service)
        let norm_svc_domain := normalize_domain svc_domain
        if norm_svc_domain ≠ "" ∧ norm_e_domain ≠ "" then
          if norm_svc_domain == norm_e_domain then
            { score := base4 + 3/100, ev := ev, warnings := [] }
          else { score := base4, ev := ev, warnings := [mismatchMsg entity] }
        else { score := base4, ev := ev, warnings := [] }
      else { score := base4, ev := ev, warnings := [] }

end Matcher

namespace Matcher


def c4Dev : Obj := { device_name := "light", room_name_en := "living_room" }

def c4Ent : Obj :=
  { entity_id := "light.a", device_name := "light", room_name_en := "living_room" }


end Matcher

theorem normalize_empty : normalize ("") = ("") := rfl

/-- C5 (counterexample): the query string of a single exclamation mark is
non-empty, yet `field_similarity` on it and the identical singleton candidate
returns 0, not 1: the query normalizes to the empty token and the
empty-query branch fires before the exact-match fast path. -/
theorem C5_counterexample :
    ("!" : String) ≠ "" ∧
    Engine.field_similarity Engine.tfZero ("!") [("!")] = 0 ∧
    ((0 : ℚ) = 1 → False) := by
  refine ⟨by decide, by decide, by norm_num⟩

/-- C5 (amended): for every query whose normalized form is non-empty,
`field_similarity` of the query against the singleton candidate list holding
exactly the query is 1; the similarity is 0 whenever the query normalizes to
the empty token (in particular for the empty query), whenever the candidate
list is empty, and whenever no candidate has a non-empty normalized form
(such candidates are ignored). -/
theorem C5_field_similarity_laws (tf : String → List String → ℚ) :
    (∀ q : String, normalize q ≠ "" → Engine.field_similarity tf q [q] = 1) ∧
    (∀ (q : String) (cands : List String), normalize q = "" →
      Engine.field_similarity tf q cands = 0) ∧
    (∀ q : String, Engine.field_similarity tf q [] = 0) ∧
    (∀ (q : String) (cands : List String),
      ((cands.filter (· != "")).map normalize).filter (· != "") = [] →
      Engine.field_similarity tf q cands = 0) := by
  refine ⟨fun q h => ?_, fun q cands h => ?_, fun q => ?_, fun q cands h => ?_⟩
  · have hq : q ≠ "" := by
      intro e; exact h (by rw [e]; rfl)
    have h1 : ([q].filter (· != "")) = [q] := by
      simp [hq]
    simp only [Engine.field_similarity, h1]
    have h2 : (([q].map normalize).filter (· != "")) = [normalize q] := by
      simp [h]
    simp only [List.map_cons, List.map_nil] at h2 ⊢
    rw [h2]
    have h3 : ¬(normalize q = "" ∨ ([normalize q] : List String) = []) := by
      simp [h]
    rw [if_neg h3, if_pos (List.mem_singleton.mpr rfl)]
  · simp only [Engine.field_similarity]
    rw [if_pos (Or.inl h)]
  · simp [Engine.field_similarity]
  · simp only [Engine.field_similarity, h]
    simp

/-- Witness for C5 (amended): the laws applied at a concrete query with a
non-empty normal form and at concrete degenerate inputs. -/
theorem C5_field_similarity_laws_witness :
    (normalize ("Lamp") ≠ "" ∧
      Engine.field_similarity Engine.tfZero ("Lamp") [("Lamp")] = 1) ∧
    Engine.field_similarity Engine.tfZero ("") [("x")] = 0 ∧
    Engine.field_similarity Engine.tfZero ("lamp") [] = 0 ∧
    Engine.field_similarity Engine.tfZero ("lamp") [("!"), ("")] = 0 :=
  ⟨⟨by decide, (C5_field_similarity_laws Engine.tfZero).1 ("Lamp") (by decide)⟩,
    (C5_field_similarity_laws Engine.tfZero).2.1 ("") [("x")] (by decide),
    (C5_field_similarity_laws Engine.tfZero).2.2.1 ("lamp"),
    (C5_field_similarity_laws Engine.tfZero).2.2.2 ("lamp") [("!"), ("")] (by decide)⟩

/-- C1 (counterexample): in the optimized engine the accepted scenario pair
(request room living_room and type light against light.living_lamp in
living_room) has composite 0.685: the name weight multiplies the raw absent
name score 0, not the 0.85 substitute, so the composite is neither the
claimed 0.9025 nor even the value 0.94 of the claimed substitute formula. -/
theorem C1_counterexample :
    (Engine.compute_scores_for_device Engine.tfZero {} Engine.scnDev Engine.scnLiving
      {} {}).1 = 137/200 ∧
    (0 : ℚ) ≤ 137/200 ∧
    ((137/200 : ℚ) = 361/400 → False) ∧
    ((137/200 : ℚ) = 15/100 * (90/100) + 40/100 * 1 + 30/100 * (85/100) + 15/100 * 1
      → False) := by
  refine ⟨by decide, by norm_num, by norm_num, by norm_num⟩

theorem engine_bedroom_reject (tfE : String → List String → ℚ)
    (hE : tfE ("livingroom") [("bedroom")] < 98/100) :
    Engine.compute_scores_for_device tfE {} Engine.scnDev Engine.scnBedroom {} {}
      = (-1, { floor_text := "", floor_sc := 0, room_text := ("living_room"),
               room_sc := tfE ("livingroom") [("bedroom")], name_text := "",
               name_sc := 0, type_text := ("light"), type_sc := 1 }) := by
  have h1 : Engine.room_score tfE Engine.scnDev Engine.scnBedroom
      = tfE ("livingroom") [("bedroom")] := rfl
  have h2 : decide ((98/100 : ℚ) ≤ Engine.room_score tfE Engine.scnDev Engine.scnBedroom)
      = false := by
    rw [h1]; exact decide_eq_false (not_le.mpr hE)
  simp only [Engine.compute_scores_for_device, h2]
  rfl

/-- The paragraph-8 scenario batch: one request (room living_room, type
light) against the two-lamp entity pool, empty alias tables, default
configuration. -/
def Engine.scnInput : Engine.ProcessInput :=
  { intent_devices := [Engine.scnDev],
    entities := [Engine.scnLiving, Engine.scnBedroom] }

/-- The evidence record of the accepted scenario pair. -/
def Engine.evLiving : Engine.Ev :=
  { floor_text := "", floor_sc := 0, room_text := ("living_room"), room_sc := 1,
    name_text := "", name_sc := 0, type_text := ("light"), type_sc := 1 }

/-- C1 (amended): for every pair the optimized engine accepts, the composite
is exactly the weighted sum weights.F * (floor score, or the 0.90 substitute
when no floor was requested) + weights.R * room score + weights.N * (the
0.85 substitute for a generic name, else the raw name score) + weights.T *
type score, plus the location bonus; an absent name is never generic and its
name score is 0, so it contributes nothing (the absent-or-generic 0.85
substitute of the claim lives only in the earlier `score_entity`).  In the
paragraph-8 scenario (pool living_lamp and bedroom_lamp, request room
living_room and type light) exactly one target, light.living_lamp, is
ranked by the engine and its composite is 0.685; `score_entity` yields the
0.85-substitute value, which is 0.94 (not 0.9025), plus the 0.10 near-exact
room bonus, and rejects bedroom_lamp.  The hypotheses bound the TF-IDF
oracle values for the one fallback comparison (living_room against bedroom)
below the respective room gates. -/
theorem C1_amended (tfE tfM : String → List String → ℚ) (prev : Engine.AliasIndices)
    (dev e : Obj) (idx : Engine.AliasIndices) (aliases : AliasTables)
    (cfg : Engine.Cfg)
    (hE : tfE ("livingroom") [("bedroom")] < 98/100)
    (hM : tfM ("livingroom") [("bedroom")] < 7/10) :
    (0 ≤ (Engine.compute_scores_for_device tfE idx dev e aliases cfg).1 →
      (Engine.compute_scores_for_device tfE idx dev e aliases cfg).1 =
        cfg.weights.F * (if Engine.floor_query dev ≠ ""
            then Engine.floor_score tfE dev e else 90/100) +
        cfg.weights.R * Engine.room_score tfE dev e +
        cfg.weights.N * (if Engine.is_generic dev = true then (85/100 : ℚ)
            else Engine.name_score tfE dev e) +
        cfg.weights.T * Engine.type_score tfE idx dev e +
        Engine.location_bonus aliases.rooms dev e) ∧
    (Engine.name_query dev = "" →
      Engine.is_generic dev = false ∧ Engine.name_score tfE dev e = 0) ∧
    ((Engine.process tfE prev Engine.scnInput).2.actions.map
      (fun a => a.targets.map (fun t => (t.entity_id, t.score)))) =
      [[(("light.living_lamp"), (137/200 : ℚ))]] ∧
    (Matcher.score_entity tfM Engine.scnDev Engine.scnLiving).score
      = 15/100 * (90/100) + 40/100 * 1 + 30/100 * (85/100) + 15/100 * 1 + 1/10 ∧
    (15/100 * (90/100) + 40/100 * 1 + 30/100 * (85/100) + 15/100 * 1 : ℚ) = 94/100 ∧
    (Matcher.score_entity tfM Engine.scnDev Engine.scnBedroom).score = -1 := by
  have hr : Engine.room_score tfE Engine.scnDev Engine.scnLiving = 1 := by
    simp +decide [Engine.room_score, Engine.field_similarity]
  have ht : Engine.type_score tfE {} Engine.scnDev Engine.scnLiving = 1 := by
    simp +decide [Engine.type_score, Engine.field_similarity, Engine.expand_alias_fast]
  have hn : Engine.name_score tfE Engine.scnDev Engine.scnLiving = 0 := by
    simp +decide [Engine.name_score]
  have hf : Engine.floor_score tfE Engine.scnDev Engine.scnLiving = 0 := by
    simp +decide [Engine.floor_score]
  have hlb : Engine.location_bonus [] Engine.scnDev Engine.scnLiving = 0 := by
    simp +decide [Engine.location_bonus]
  have hL : Engine.compute_scores_for_device tfE {} Engine.scnDev Engine.scnLiving {} {}
      = (137/200, Engine.evLiving) := by
    simp +decide [Engine.compute_scores_for_device, hr, ht, hn, hf, hlb, Engine.evLiving]
  have hB := engine_bedroom_reject tfE hE
  refine ⟨?_, ?_, ?_, ?_, by norm_num, ?_⟩
  · intro hge
    simp only [Engine.compute_scores_for_device] at hge ⊢
    split at hge
    case isTrue h =>
      norm_num at hge
    case isFalse h =>
      rw [if_neg h]
  · intro hnq
    constructor
    · simp [Engine.is_generic, hnq]
    · simp [Engine.name_score, hnq]
  · have d1 : decide ((0 : ℚ) ≤ 137/200) = true := by decide
    have d2 : decide ((0 : ℚ) ≤ -1) = false := by decide
    simp only [Engine.process, Engine.perDevice, List.map_cons, List.map_nil,
      show Engine.scnInput.aliases = {} from rfl,
      show Engine.scnInput.entities = [Engine.scnLiving, Engine.scnBedroom] from rfl,
      show Engine.scnInput.intent_devices = [Engine.scnDev] from rfl,
      show Engine.scnInput.config = {} from rfl,
      show Engine.build_indices ({} : AliasTables) = {} from rfl,
      show Engine.build_type_index [Engine.scnLiving, Engine.scnBedroom]
        = [(("light"), [Engine.scnLiving, Engine.scnBedroom])] from (by decide),
      show Engine.filter_candidates Engine.scnDev [Engine.scnLiving, Engine.scnBedroom]
          [(("light"), [Engine.scnLiving, Engine.scnBedroom])]
        = [Engine.scnLiving, Engine.scnBedroom] from (by decide),
      hL, hB, List.filter_cons, List.filter_nil, d1, d2, Bool.false_eq_true,
      if_true, if_false]
    decide
  · -- the living-lamp pair under score_entity: no slow path is consulted
    have hmr : Matcher.room_score_fn tfM Engine.scnDev Engine.scnLiving = 1 := by
      simp +decide [Matcher.room_score_fn]
    have hmt : Matcher.type_score_fn tfM Engine.scnDev Engine.scnLiving = 1 := by
      simp +decide [Matcher.type_score_fn]
    have hmn : Matcher.name_sim_fn tfM Engine.scnDev Engine.scnLiving = 0 := by
      simp +decide [Matcher.name_sim_fn, Matcher.slot_similarity]
    have hmf : Matcher.floor_score_fn tfM Engine.scnDev Engine.scnLiving = 0 := by
      simp +decide [Matcher.floor_score_fn]
    have hml : Matcher.location_bonus_fn Engine.scnDev Engine.scnLiving = 0 := by decide
    have hmrej : Matcher.reject_fn tfM Engine.scnDev Engine.scnLiving = false := by
      simp +decide [Matcher.reject_fn, Matcher.floor_pass_fn, Matcher.room_pass_fn,
        Matcher.name_pass_fn, Matcher.type_pass_fn, hmr, hmt, hmn, hmf]
    have h26 : (Matcher.score_entity tfM Engine.scnDev Engine.scnLiving).score = 26/25 := by
      simp +decide [Matcher.score_entity, hmr, hmt, hmn, hmf, hml, hmrej]
    rw [h26]; norm_num
  · -- the bedroom pair: the room phase falls through to the slow path
    have hbr : Matcher.room_score_fn tfM Engine.scnDev Engine.scnBedroom
        = tfM ("livingroom") [("bedroom")] := rfl
    have h2 : decide (Matcher.THRESHOLD_room ≤
        Matcher.room_score_fn tfM Engine.scnDev Engine.scnBedroom) = false := by
      rw [hbr]
      exact decide_eq_false (not_le.mpr hM)
    have hbt : Matcher.type_score_fn tfM Engine.scnDev Engine.scnBedroom = 1 := by
      simp +decide [Matcher.type_score_fn]
    have hbn : Matcher.name_sim_fn tfM Engine.scnDev Engine.scnBedroom = 0 := by
      simp +decide [Matcher.name_sim_fn, Matcher.slot_similarity]
    have hbf : Matcher.floor_score_fn tfM Engine.scnDev Engine.scnBedroom = 0 := by
      simp +decide [Matcher.floor_score_fn]
    have hbl : Matcher.location_bonus_fn Engine.scnDev Engine.scnBedroom = 0 := by decide
    have hbrej : Matcher.reject_fn tfM Engine.scnDev Engine.scnBedroom = true := by
      simp +decide [Matcher.reject_fn, Matcher.floor_pass_fn, Matcher.room_pass_fn,
        Matcher.name_pass_fn, Matcher.type_pass_fn, h2, hbt, hbn, hbf]
    simp +decide [Matcher.score_entity, hbrej]

/-- Witness for C1 (amended): the scenario run with the zero oracle, which
satisfies both slow-path bounds; the universal decomposition and the
absent-name facts are instantiated at the accepted scenario pair. -/
theorem C1_amended_witness :
    Engine.tfZero ("livingroom") [("bedroom")] < 98/100 ∧
    Engine.tfZero ("livingroom") [("bedroom")] < 7/10 ∧
    (0 : ℚ) ≤ (Engine.compute_scores_for_device Engine.tfZero {} Engine.scnDev
      Engine.scnLiving {} {}).1 ∧
    ((Engine.compute_scores_for_device Engine.tfZero {} Engine.scnDev
        Engine.scnLiving {} {}).1 =
      ({} : Engine.Cfg).weights.F * (if Engine.floor_query Engine.scnDev ≠ ""
          then Engine.floor_score Engine.tfZero Engine.scnDev Engine.scnLiving
          else 90/100) +
      ({} : Engine.Cfg).weights.R *
        Engine.room_score Engine.tfZero Engine.scnDev Engine.scnLiving +
      ({} : Engine.Cfg).weights.N * (if Engine.is_generic Engine.scnDev = true
          then (85/100 : ℚ)
          else Engine.name_score Engine.tfZero Engine.scnDev Engine.scnLiving) +
      ({} : Engine.Cfg).weights.T *
        Engine.type_score Engine.tfZero {} Engine.scnDev Engine.scnLiving +
      Engine.location_bonus ({} : AliasTables).rooms Engine.scnDev Engine.scnLiving) ∧
    Engine.name_query Engine.scnDev = "" ∧
    (Engine.is_generic Engine.scnDev = false ∧
      Engine.name_score Engine.tfZero Engine.scnDev Engine.scnLiving = 0) ∧
    (((Engine.process Engine.tfZero {} Engine.scnInput).2.actions.map
      (fun a => a.targets.map (fun t => (t.entity_id, t.score)))) =
      [[(("light.living_lamp"), (137/200 : ℚ))]] ∧
    (Matcher.score_entity Engine.tfZero Engine.scnDev Engine.scnLiving).score
      = 15/100 * (90/100) + 40/100 * 1 + 30/100 * (85/100) + 15/100 * 1 + 1/10 ∧
    (15/100 * (90/100) + 40/100 * 1 + 30/100 * (85/100) + 15/100 * 1 : ℚ) = 94/100 ∧
    (Matcher.score_entity Engine.tfZero Engine.scnDev Engine.scnBedroom).score = -1) :=
  ⟨by decide, by decide, by decide,
   (C1_amended Engine.tfZero Engine.tfZero {} Engine.scnDev Engine.scnLiving {} {} {}
     (by decide) (by decide)).1 (by decide),
   by decide,
   (C1_amended Engine.tfZero Engine.tfZero {} Engine.scnDev Engine.scnLiving {} {} {}
     (by decide) (by decide)).2.1 (by decide),
   (C1_amended Engine.tfZero Engine.tfZero {} Engine.scnDev Engine.scnLiving {} {} {}
     (by decide) (by decide)).2.2⟩

/-- Projection helper for `MResult` literals. -/
theorem mresult_score_mk (a : ℚ) (ev : Engine.Ev) (w : List String) :
    (Matcher.MResult.mk a ev w).score = a := rfl

/-- Projection helper for `MResult` literals. -/
theorem mresult_warnings_mk (a : ℚ) (ev : Engine.Ev) (w : List String) :
    (Matcher.MResult.mk a ev w).warnings = w := rfl

/-- C4 (counterexample): a request for the generic name light in the living
room against a light entity of that room and name is accepted by
`score_entity` with a perfect name score of 1 (at least 0.98), yet its
composite is 0.89 = 0.15*0.90 + 0.40*1 + 0.30*0.85 + 0.15*0 + 0.10: the
+0.05 near-exact-name bonus is withheld because the name is generic, so the
claimed unconditional name bonus is false. -/
theorem C4_counterexample :
    (Matcher.score_entity Engine.tfZero Matcher.c4Dev Matcher.c4Ent).ev.name_sc = 1 ∧
    (98/100 : ℚ) ≤ 1 ∧
    (0 : ℚ) ≤ (Matcher.score_entity Engine.tfZero Matcher.c4Dev Matcher.c4Ent).score ∧
    (Matcher.score_entity Engine.tfZero Matcher.c4Dev Matcher.c4Ent).score = 89/100 ∧
    ((89/100 : ℚ) = 89/100 + 1/20 → False) := by
  refine ⟨by decide, by norm_num, by decide, by decide, by norm_num⟩

/-- C4 (amended): in `score_entity`, an accepted pair outside the all-devices
mode (which returns a flat 0.80 and no warnings) scores the weighted base
plus: the +0.4 location bonus, +0.10 when a room was requested and the room
score is at least 0.98, +0.05 when a non-generic name was requested and the
name score is at least 0.98, +0.03 when a floor was requested and the floor
score is at least 0.98, and +0.03 when the request carries a service whose
normalized domain and the entity's normalized domain are both non-empty and
equal; when they are both non-empty and differ, the non-fatal mismatch
warning is attached instead (and scoring still returns the base).  The
optimized engine adds only the location bonus to its accepted composites and
its actions never carry warnings. -/
theorem C4_amended (tfM tfE : String → List String → ℚ) (device entity : Obj)
    (idx : Engine.AliasIndices) (aliases : AliasTables) (cfg : Engine.Cfg)
    (prev : Engine.AliasIndices) (p : Engine.ProcessInput) :
    (0 ≤ (Matcher.score_entity tfM device entity).score →
      (Matcher.floor_query device == "" && Matcher.room_query device == "" &&
          Matcher.name_query device == "" && Matcher.type_query device != "") = true →
        (Matcher.score_entity tfM device entity).score = 80/100 ∧
        (Matcher.score_entity tfM device entity).warnings = []) ∧
    (0 ≤ (Matcher.score_entity tfM device entity).score →
      (Matcher.floor_query device == "" && Matcher.room_query device == "" &&
          Matcher.name_query device == "" && Matcher.type_query device != "") = false →
        (Matcher.score_entity tfM device entity).score =
          Matcher.wF * (if Matcher.floor_query device ≠ ""
              then Matcher.floor_score_fn tfM device entity else 90/100) +
          Matcher.wR * Matcher.room_score_fn tfM device entity +
          Matcher.wN * (if (Matcher.name_query device != "" &&
              !Matcher.is_generic_device_name (Matcher.name_query device)) = true
              then Matcher.name_sim_fn tfM device entity else 85/100) +
          Matcher.wT * Matcher.type_score_fn tfM device entity +
          Matcher.location_bonus_fn device entity +
          (if (Matcher.room_query device != "" &&
              decide ((98/100 : ℚ) ≤ Matcher.room_score_fn tfM device entity)) = true
            then (1/10 : ℚ) else 0) +
          (if (Matcher.name_query device != "" &&
              !Matcher.is_generic_device_name (Matcher.name_query device) &&
              decide ((98/100 : ℚ) ≤ Matcher.name_sim_fn tfM device entity)) = true
            then (1/20 : ℚ) else 0) +
          (if (Matcher.floor_query device != "" &&
              decide ((98/100 : ℚ) ≤ Matcher.floor_score_fn tfM device entity)) = true
            then (3/100 : ℚ) else 0) +
          (if device.service ≠ "" ∧
              Matcher.normalize_domain (pyLower (pySplitDot device.service)) ≠ "" ∧
              Matcher.normalize_domain (Matcher.entity_domain entity) ≠ "" ∧
              Matcher.normalize_domain (pyLower (pySplitDot device.service)) =
                Matcher.normalize_domain (Matcher.entity_domain entity)
            then (3/100 : ℚ) else 0) ∧
        ((Matcher.score_entity tfM device entity).warnings ≠ [] ↔
          device.service ≠ "" ∧
          Matcher.normalize_domain (pyLower (pySplitDot device.service)) ≠ "" ∧
          Matcher.normalize_domain (Matcher.entity_domain entity) ≠ "" ∧
          Matcher.normalize_domain (pyLower (pySplitDot device.service)) ≠
            Matcher.normalize_domain (Matcher.entity_domain entity))) ∧
    (0 ≤ (Engine.compute_scores_for_device tfE idx device entity aliases cfg).1 →
      (Engine.compute_scores_for_device tfE idx device entity aliases cfg).1 =
        cfg.weights.F * (if Engine.floor_query device ≠ ""
            then Engine.floor_score tfE device entity else 90/100) +
        cfg.weights.R * Engine.room_score tfE device entity +
        cfg.weights.N * (if Engine.is_generic device = true then (85/100 : ℚ)
            else Engine.name_score tfE device entity) +
        cfg.weights.T * Engine.type_score tfE idx device entity +
        Engine.location_bonus aliases.rooms device entity) ∧
    (∀ a ∈ (Engine.process tfE prev p).2.actions, a.warnings = []) := by
  refine ⟨?_, ?_, ?_, ?_⟩
  · intro hge hmode
    simp only [Matcher.score_entity] at hge ⊢
    rw [if_pos hmode] at hge ⊢
    split at hge
    case isTrue h =>
      rw [if_pos h]
      exact ⟨rfl, rfl⟩
    case isFalse h =>
      rw [mresult_score_mk] at hge
      norm_num at hge
  · intro hge hmode
    simp only [Matcher.score_entity] at hge ⊢
    rw [if_neg (by simp [hmode])] at hge ⊢
    split at hge
    case isTrue h =>
      rw [mresult_score_mk] at hge
      norm_num at hge
    case isFalse hrej =>
      rw [if_neg hrej]
      by_cases hs : device.service = ""
      · rw [if_neg (not_not_intro hs)]
        rw [mresult_score_mk, mresult_warnings_mk]
        have hnP : ¬(device.service ≠ "" ∧
            Matcher.normalize_domain (pyLower (pySplitDot device.service)) ≠ "" ∧
            Matcher.normalize_domain (Matcher.entity_domain entity) ≠ "" ∧
            Matcher.normalize_domain (pyLower (pySplitDot device.service)) =
              Matcher.normalize_domain (Matcher.entity_domain entity)) :=
          fun hc => hc.1 hs
        constructor
        · rw [if_neg hnP]
          ring
        · simp [hs]
      · rw [if_pos hs]
        by_cases hd : Matcher.normalize_domain (pyLower (pySplitDot device.service)) ≠ "" ∧
            Matcher.normalize_domain (Matcher.entity_domain entity) ≠ ""
        · rw [if_pos hd]
          by_cases he : (Matcher.normalize_domain (pyLower (pySplitDot device.service)) ==
              Matcher.normalize_domain (Matcher.entity_domain entity)) = true
          · rw [if_pos he, mresult_score_mk, mresult_warnings_mk]
            have hP : device.service ≠ "" ∧
                Matcher.normalize_domain (pyLower (pySplitDot device.service)) ≠ "" ∧
                Matcher.normalize_domain (Matcher.entity_domain entity) ≠ "" ∧
                Matcher.normalize_domain (pyLower (pySplitDot device.service)) =
                  Matcher.normalize_domain (Matcher.entity_domain entity) :=
              ⟨hs, hd.1, hd.2, beq_iff_eq.mp he⟩
            constructor
            · rw [if_pos hP]
            · simp [hs, hd.1, hd.2, beq_iff_eq.mp he]
          · rw [if_neg he, mresult_score_mk, mresult_warnings_mk]
            have hne : Matcher.normalize_domain (pyLower (pySplitDot device.service)) ≠
                Matcher.normalize_domain (Matcher.entity_domain entity) :=
              fun hc => he (beq_iff_eq.mpr hc)
            have hnP : ¬(device.service ≠ "" ∧
                Matcher.normalize_domain (pyLower (pySplitDot device.service)) ≠ "" ∧
                Matcher.normalize_domain (Matcher.entity_domain entity) ≠ "" ∧
                Matcher.normalize_domain (pyLower (pySplitDot device.service)) =
                  Matcher.normalize_domain (Matcher.entity_domain entity)) :=
              fun hc => hne hc.2.2.2
            constructor
            · rw [if_neg hnP]
              ring
            · simp [hs, hd.1, hd.2, hne, Matcher.mismatchMsg]
        · rw [if_neg hd, mresult_score_mk, mresult_warnings_mk]
          have hnP : ¬(device.service ≠ "" ∧
              Matcher.normalize_domain (pyLower (pySplitDot device.service)) ≠ "" ∧
              Matcher.normalize_domain (Matcher.entity_domain entity) ≠ "" ∧
              Matcher.normalize_domain (pyLower (pySplitDot device.service)) =
                Matcher.normalize_domain (Matcher.entity_domain entity)) :=
            fun hc => hd ⟨hc.2.1, hc.2.2.1⟩
          constructor
          · rw [if_neg hnP]
            ring
          · simp only [ne_eq, not_true_eq_false, false_iff]
            exact fun hc => hd ⟨hc.2.1, hc.2.2.1⟩
  · intro hge
    simp only [Engine.compute_scores_for_device] at hge ⊢
    split at hge
    case isTrue h =>
      norm_num at hge
    case isFalse h =>
      rw [if_neg h]
  · intro a ha
    simp only [Engine.process, List.mem_map] at ha
    obtain ⟨x, ⟨dev, hdev, rfl⟩, rfl⟩ := ha
    rfl

/-- Witness for C4 (amended): the generic-name pair of the counterexample,
with both hypotheses discharged concretely (the pair is accepted and is not
in the all-devices mode). -/
theorem C4_amended_witness :
    ((0 : ℚ) ≤ (Matcher.score_entity Engine.tfZero Matcher.c4Dev Matcher.c4Ent).score) ∧
    ((Matcher.floor_query Matcher.c4Dev == "" && Matcher.room_query Matcher.c4Dev == "" &&
          Matcher.name_query Matcher.c4Dev == "" && Matcher.type_query Matcher.c4Dev != "") = false) ∧
    (
        (Matcher.score_entity Engine.tfZero Matcher.c4Dev Matcher.c4Ent).score =
          Matcher.wF * (if Matcher.floor_query Matcher.c4Dev ≠ ""
              then Matcher.floor_score_fn Engine.tfZero Matcher.c4Dev Matcher.c4Ent else 90/100) +
          Matcher.wR * Matcher.room_score_fn Engine.tfZero Matcher.c4Dev Matcher.c4Ent +
          Matcher.wN * (if (Matcher.name_query Matcher.c4Dev != "" &&
              !Matcher.is_generic_device_name (Matcher.name_query Matcher.c4Dev)) = true
              then Matcher.name_sim_fn Engine.tfZero Matcher.c4Dev Matcher.c4Ent else 85/100) +
          Matcher.wT * Matcher.type_score_fn Engine.tfZero Matcher.c4Dev Matcher.c4Ent +
          Matcher.location_bonus_fn Matcher.c4Dev Matcher.c4Ent +
          (if (Matcher.room_query Matcher.c4Dev != "" &&
              decide ((98/100 : ℚ) ≤ Matcher.room_score_fn Engine.tfZero Matcher.c4Dev Matcher.c4Ent)) = true
            then (1/10 : ℚ) else 0) +
          (if (Matcher.name_query Matcher.c4Dev != "" &&
              !Matcher.is_generic_device_name (Matcher.name_query Matcher.c4Dev) &&
              decide ((98/100 : ℚ) ≤ Matcher.name_sim_fn Engine.tfZero Matcher.c4Dev Matcher.c4Ent)) = true
            then (1/20 : ℚ) else 0) +
          (if (Matcher.floor_query Matcher.c4Dev != "" &&
              decide ((98/100 : ℚ) ≤ Matcher.floor_score_fn Engine.tfZero Matcher.c4Dev Matcher.c4Ent)) = true
            then (3/100 : ℚ) else 0) +
          (if Matcher.c4Dev.service ≠ "" ∧
              Matcher.normalize_domain (pyLower (pySplitDot Matcher.c4Dev.service)) ≠ "" ∧
              Matcher.normalize_domain (Matcher.entity_domain Matcher.c4Ent) ≠ "" ∧
              Matcher.normalize_domain (pyLower (pySplitDot Matcher.c4Dev.service)) =
                Matcher.normalize_domain (Matcher.entity_domain Matcher.c4Ent)
            then (3/100 : ℚ) else 0) ∧
        ((Matcher.score_entity Engine.tfZero Matcher.c4Dev Matcher.c4Ent).warnings ≠ [] ↔
          Matcher.c4Dev.service ≠ "" ∧
          Matcher.normalize_domain (pyLower (pySplitDot Matcher.c4Dev.service)) ≠ "" ∧
          Matcher.normalize_domain (Matcher.entity_domain Matcher.c4Ent) ≠ "" ∧
          Matcher.normalize_domain (pyLower (pySplitDot Matcher.c4Dev.service)) ≠
            Matcher.normalize_domain (Matcher.entity_domain Matcher.c4Ent))) :=
  ⟨by decide, by decide,
    (C4_amended Engine.tfZero Engine.tfZero Matcher.c4Dev Matcher.c4Ent {} {} {} {}
      Engine.scnInput).2.1 (by decide) (by decide)⟩

theorem weights_default_F : ({} : Engine.Weights).F = 15/100 := rfl

theorem weights_default_R : ({} : Engine.Weights).R = 40/100 := rfl

theorem weights_default_N : ({} : Engine.Weights).N = 30/100 := rfl

theorem weights_default_T : ({} : Engine.Weights).T = 15/100 := rfl

theorem field_similarity_nonneg (tf : String → List String → ℚ)
    (hb : ∀ q cs, 0 ≤ tf q cs) (q : String) (cands : List String) :
    0 ≤ Engine.field_similarity tf q cands := by
  simp only [Engine.field_similarity]
  split_ifs with h1 h2 h3
  · norm_num
  · norm_num
  · norm_num
  · exact hb _ _

theorem engine_floor_score_nonneg (tf : String → List String → ℚ)
    (hb : ∀ q cs, 0 ≤ tf q cs) (dev e : Obj) : 0 ≤ Engine.floor_score tf dev e := by
  simp only [Engine.floor_score]
  split_ifs
  · exact field_similarity_nonneg tf hb _ _
  · norm_num

theorem engine_room_score_nonneg (tf : String → List String → ℚ)
    (hb : ∀ q cs, 0 ≤ tf q cs) (dev e : Obj) : 0 ≤ Engine.room_score tf dev e := by
  simp only [Engine.room_score]
  split_ifs
  · exact field_similarity_nonneg tf hb _ _
  · norm_num

theorem engine_name_score_nonneg (tf : String → List String → ℚ)
    (hb : ∀ q cs, 0 ≤ tf q cs) (dev e : Obj) : 0 ≤ Engine.name_score tf dev e := by
  simp only [Engine.name_score]
  split_ifs
  · exact field_similarity_nonneg tf hb _ _
  · norm_num

theorem engine_type_score_nonneg (tf : String → List String → ℚ)
    (hb : ∀ q cs, 0 ≤ tf q cs) (idx : Engine.AliasIndices) (dev e : Obj) :
    0 ≤ Engine.type_score tf idx dev e := by
  simp only [Engine.type_score]
  exact field_similarity_nonneg tf hb _ _

theorem engine_location_bonus_nonneg (rooms : AliasMap) (dev e : Obj) :
    0 ≤ Engine.location_bonus rooms dev e := by
  simp only [Engine.location_bonus]
  split_ifs <;> norm_num

/-- C3: the room gate.  In the optimized engine (the evidence-preserving
variant) a candidate passes the room gate exactly when its room similarity
is at least the hard-coded near-exact 0.98 (the configured room threshold is
not consulted): with a requested room and a room score below 0.98 the
sentinel -1 is returned no matter what the other fields hold, and with the
room gate satisfied plus the other three gates (and the default weights and
a TF-IDF oracle producing only non-negative values) the pair is accepted
with a non-negative composite.  In the earlier `score_entity` the gate is
the 0.70 default room threshold: a requested room scoring below 0.70 forces
the -1 sentinel, and every accepted pair has no requested room or a room
score of at least 0.70.  With no requested room the gate passes in both
implementations. -/
theorem C3_room_gate (tfE tfM : String → List String → ℚ) (idx : Engine.AliasIndices)
    (dev e : Obj) (aliases : AliasTables) (cfg : Engine.Cfg) :
    (Engine.room_query dev ≠ "" → Engine.room_score tfE dev e < 98/100 →
      (Engine.compute_scores_for_device tfE idx dev e aliases cfg).1 = -1) ∧
    (cfg.weights = {} → (∀ q cs, 0 ≤ tfE q cs) →
      (Engine.room_query dev = "" ∨ (98/100 : ℚ) ≤ Engine.room_score tfE dev e) →
      (Engine.floor_query dev == "" ||
        decide (cfg.thresholds.floor ≤ Engine.floor_score tfE dev e)) = true →
      (Engine.type_query dev == "" ||
        decide (cfg.thresholds.type ≤ Engine.type_score tfE idx dev e)) = true →
      ((Engine.name_query dev == "" || Engine.is_generic dev) ||
        decide (cfg.thresholds.name ≤ Engine.name_score tfE dev e)) = true →
      0 ≤ (Engine.compute_scores_for_device tfE idx dev e aliases cfg).1) ∧
    (Matcher.room_query dev ≠ "" → Matcher.room_score_fn tfM dev e < 7/10 →
      (Matcher.score_entity tfM dev e).score = -1) ∧
    (0 ≤ (Matcher.score_entity tfM dev e).score →
      Matcher.room_query dev = "" ∨ (7/10 : ℚ) ≤ Matcher.room_score_fn tfM dev e) := by
  have engNec : Engine.room_query dev ≠ "" → Engine.room_score tfE dev e < 98/100 →
      (Engine.compute_scores_for_device tfE idx dev e aliases cfg).1 = -1 := by
    intro hrq hrs
    have hrqb : (Engine.room_query dev == "") = false := beq_eq_false_iff_ne.mpr hrq
    have hdec : decide ((98/100 : ℚ) ≤ Engine.room_score tfE dev e) = false :=
      decide_eq_false (not_le.mpr hrs)
    simp only [Engine.compute_scores_for_device, hrqb, hdec, Bool.or_self,
      Bool.and_false, Bool.false_and, Bool.not_false, if_true]
  have matNec : Matcher.room_query dev ≠ "" → Matcher.room_score_fn tfM dev e < 7/10 →
      (Matcher.score_entity tfM dev e).score = -1 := by
    intro hrq hrs
    have hrqb : (Matcher.room_query dev == "") = false := beq_eq_false_iff_ne.mpr hrq
    have hrp : Matcher.room_pass_fn tfM dev e = false := by
      simp only [Matcher.room_pass_fn, if_pos hrq]
      exact decide_eq_false (not_le.mpr (by simpa using hrs))
    have hrej : Matcher.reject_fn tfM dev e = true := by
      simp only [Matcher.reject_fn, hrp, hrqb, Bool.and_false, Bool.false_and,
        Bool.not_false, Bool.true_or, Bool.or_true, if_false]
      split
      · next h => exact absurd h Bool.false_ne_true
      · rw [ite_self]
    simp only [Matcher.score_entity, hrqb, Bool.and_false, Bool.false_and, hrej,
      Bool.false_eq_true, if_false, if_true, mresult_score_mk]
  refine ⟨engNec, ?_, matNec, ?_⟩
  · intro hW hb hroom hfp htp hnp
    have hrp : (Engine.room_query dev == "" ||
        decide ((98/100 : ℚ) ≤ Engine.room_score tfE dev e)) = true := by
      rcases hroom with h | h
      · simp [h]
      · simp [decide_eq_true h]
    simp only [Engine.compute_scores_for_device, hrp, hfp, htp, hnp, Bool.and_self,
      Bool.and_true, Bool.true_and, Bool.not_true, Bool.false_eq_true, if_false]
    have h1 := engine_floor_score_nonneg tfE hb dev e
    have h2 := engine_room_score_nonneg tfE hb dev e
    have h3 := engine_name_score_nonneg tfE hb dev e
    have h4 := engine_type_score_nonneg tfE hb idx dev e
    have h5 := engine_location_bonus_nonneg aliases.rooms dev e
    rw [hW]
    simp only [weights_default_F, weights_default_R, weights_default_N, weights_default_T]
    split_ifs <;> linarith [h1, h2, h3, h4, h5]
  · intro hge
    by_cases hrq : Matcher.room_query dev = ""
    · exact Or.inl hrq
    · by_cases hrs : (7/10 : ℚ) ≤ Matcher.room_score_fn tfM dev e
      · exact Or.inr hrs
      · rw [matNec hrq (not_le.mp hrs)] at hge
        norm_num at hge

theorem C3_room_gate_witness :
    (Engine.room_query Engine.scnDev ≠ "" ∧
      Engine.room_score Engine.tfZero Engine.scnDev Engine.scnBedroom < 98/100 ∧
      (Engine.compute_scores_for_device Engine.tfZero {} Engine.scnDev
        Engine.scnBedroom {} {}).1 = -1) ∧
    (0 ≤ (Engine.compute_scores_for_device Engine.tfZero {} Engine.scnDev
        Engine.scnLiving {} {}).1) ∧
    (Matcher.room_query Engine.scnDev ≠ "" ∧
      Matcher.room_score_fn Engine.tfZero Engine.scnDev Engine.scnBedroom < 7/10 ∧
      (Matcher.score_entity Engine.tfZero Engine.scnDev Engine.scnBedroom).score = -1) ∧
    (Matcher.room_query Engine.scnDev = "" ∨
      (7/10 : ℚ) ≤ Matcher.room_score_fn Engine.tfZero Engine.scnDev Engine.scnLiving) :=
  ⟨⟨by decide, by decide,
    (C3_room_gate Engine.tfZero Engine.tfZero {} Engine.scnDev Engine.scnBedroom
      {} {}).1 (by decide) (by decide)⟩,
   (C3_room_gate Engine.tfZero Engine.tfZero {} Engine.scnDev Engine.scnLiving
      {} {}).2.1 rfl (fun _ _ => le_refl 0) (Or.inr (by decide)) (by decide)
      (by decide) (by decide),
   ⟨by decide, by decide,
    (C3_room_gate Engine.tfZero Engine.tfZero {} Engine.scnDev Engine.scnBedroom
      {} {}).2.2.1 (by decide) (by decide)⟩,
   (C3_room_gate Engine.tfZero Engine.tfZero {} Engine.scnDev Engine.scnLiving
      {} {}).2.2.2 (by decide)⟩

/-- C9: the output of `process` never depends on the alias-index state left
over from earlier batches.  For any two histories (any two left-over index
values) the same payload produces the identical output, and the state after
the batch is exactly the reverse index rebuilt from the payload's own alias
tables (matcher_engine.py line 634, before any alias lookup of the batch). -/
theorem C9_alias_state_isolation (tf : String → List String → ℚ)
    (prev prev' : Engine.AliasIndices) (p : Engine.ProcessInput) :
    (Engine.process tf prev p).2 = (Engine.process tf prev' p).2 ∧
    (Engine.process tf prev p).1 = Engine.build_indices p.aliases :=
  ⟨rfl, rfl⟩

theorem process_actions (tf : String → List String → ℚ)
    (prev : Engine.AliasIndices) (p : Engine.ProcessInput) :
    (Engine.process tf prev p).2.actions =
      (p.intent_devices.map (Engine.perDevice tf (Engine.build_indices p.aliases)
        p.aliases p.config p.entities (Engine.build_type_index p.entities))).map
        (·.1) := rfl

theorem perDevice_action_targets (tf : String → List String → ℚ)
    (idx : Engine.AliasIndices) (aliases : AliasTables) (cfg : Engine.Cfg)
    (entities : List Obj) (tindex : List (String × List Obj)) (dev : Obj) :
    (Engine.perDevice tf idx aliases cfg entities tindex dev).1.targets =
      ((List.insertionSort (fun a b => (b.2.1 : ℚ) ≤ a.2.1)
        (((Engine.filter_candidates dev entities tindex).map
          (fun e => (e, Engine.compute_scores_for_device tf idx dev e aliases cfg))).filter
          (fun x => decide (0 ≤ x.2.1)))).take cfg.topK).map Engine.mkTarget := rfl

theorem perDevice_action_suggestions (tf : String → List String → ℚ)
    (idx : Engine.AliasIndices) (aliases : AliasTables) (cfg : Engine.Cfg)
    (entities : List Obj) (tindex : List (String × List Obj)) (dev : Obj) :
    (Engine.perDevice tf idx aliases cfg entities tindex dev).1.suggestions_if_empty =
      (if ((List.insertionSort (fun a b => (b.2.1 : ℚ) ≤ a.2.1)
          (((Engine.filter_candidates dev entities tindex).map
            (fun e => (e, Engine.compute_scores_for_device tf idx dev e aliases cfg))).filter
            (fun x => decide (0 ≤ x.2.1)))).take cfg.topK) = []
        then Engine.loose_suggestions tf dev (Engine.filter_candidates dev entities tindex) cfg
        else []) := rfl

theorem mkTarget_score (it : Obj × ℚ × Engine.Ev) :
    (Engine.mkTarget it).score = pyRound3 it.2.1 := rfl

/-- C2: per-action ranking invariants of the optimized engine.  Every action
of a processed batch has only non-negatively scored targets (the -1 sentinel
never survives the filter), the targets are sorted non-increasingly by score,
at most `topK` of them are kept, and the loose suggestions are populated only
when the ranked list is empty. -/
theorem C2_ranked_invariants (tf : String → List String → ℚ)
    (prev : Engine.AliasIndices) (p : Engine.ProcessInput) (a : Engine.Action)
    (ha : a ∈ (Engine.process tf prev p).2.actions) :
    (∀ t ∈ a.targets, 0 ≤ t.score) ∧
    a.targets.Pairwise (fun t u => u.score ≤ t.score) ∧
    a.targets.length ≤ p.config.topK ∧
    (a.suggestions_if_empty ≠ [] → a.targets = []) := by
  rw [process_actions, List.map_map, List.mem_map] at ha
  obtain ⟨dev, hdev, rfl⟩ := ha
  simp only [Function.comp_apply]
  rw [perDevice_action_targets, perDevice_action_suggestions]
  refine ⟨?_, ?_, ?_, ?_⟩
  · intro t ht
    rw [List.mem_map] at ht
    obtain ⟨it, hit, rfl⟩ := ht
    have h1 := List.mem_of_mem_take hit
    rw [List.mem_insertionSort] at h1
    have h3 := (List.mem_filter.mp h1).2
    rw [mkTarget_score]
    exact pyRound3_nonneg (of_decide_eq_true h3)
  · haveI : IsTotal (Obj × ℚ × Engine.Ev) (fun a b => (b.2.1 : ℚ) ≤ a.2.1) :=
      ⟨fun a b => le_total b.2.1 a.2.1⟩
    haveI : IsTrans (Obj × ℚ × Engine.Ev) (fun a b => (b.2.1 : ℚ) ≤ a.2.1) :=
      ⟨fun a b c hab hbc => le_trans hbc hab⟩
    have himp : ∀ a b : Obj × ℚ × Engine.Ev, (b.2.1 : ℚ) ≤ a.2.1 →
        (Engine.mkTarget b).score ≤ (Engine.mkTarget a).score := by
      intro a b h
      rw [mkTarget_score, mkTarget_score]
      exact pyRound3_mono h
    have hp : (List.insertionSort (fun a b => (b.2.1 : ℚ) ≤ a.2.1)
        (((Engine.filter_candidates dev p.entities (Engine.build_type_index p.entities)).map
          (fun e => (e, Engine.compute_scores_for_device tf (Engine.build_indices p.aliases)
            dev e p.aliases p.config))).filter
          (fun x => decide (0 ≤ x.2.1)))).Pairwise (fun a b => (b.2.1 : ℚ) ≤ a.2.1) :=
      List.sorted_insertionSort _ _
    exact (List.pairwise_map).mpr
      ((List.Pairwise.sublist (List.take_sublist _ _) hp).imp (fun h => himp _ _ h))
  · rw [List.length_map]
    exact List.length_take_le _ _
  · intro hne
    split at hne
    · next h =>
        rw [h]
        rfl
    · exact absurd rfl hne

/-- The single action produced by the section 8 scenario batch, used to
exercise the ranking invariants at a concrete input. -/
def wAct : Engine.Action :=
  (Engine.perDevice Engine.tfZero (Engine.build_indices {}) {} {}
    [Engine.scnLiving, Engine.scnBedroom]
    (Engine.build_type_index [Engine.scnLiving, Engine.scnBedroom]) Engine.scnDev).1

theorem C2_ranked_invariants_witness :
    (wAct ∈ (Engine.process Engine.tfZero {} Engine.scnInput).2.actions) ∧
    ((∀ t ∈ wAct.targets, 0 ≤ t.score) ∧
     wAct.targets.Pairwise (fun t u => u.score ≤ t.score) ∧
     wAct.targets.length ≤ Engine.scnInput.config.topK ∧
     (wAct.suggestions_if_empty ≠ [] → wAct.targets = [])) :=
  ⟨by decide,
   C2_ranked_invariants Engine.tfZero {} Engine.scnInput wAct (by decide)⟩

/-- Stage 1 of `filter_candidates` (matcher_engine.py lines 239 to 261): the
type or service-domain bucket, falling back to the full entity pool. -/
def Engine.typePool (dev : Obj) (entities : List Obj)
    (type_index : List (String × List Obj)) : List Obj :=
  let type_q := get_primary_field dev FieldKind.type
  let service_domain := if dev.service ≠ "" then pySplitDot dev.service else ""
  if type_q ≠ "" then
    let p0 := Engine.tiGet type_index (normalize type_q)
    let p1 := if p0 = [] ∧ service_domain ≠ "" then
        Engine.tiGet type_index (normalize service_domain)
      else p0
    if p1 = [] then entities else p1
  else if service_domain ≠ "" then
    let p0 := Engine.tiGet type_index (normalize service_domain)
    if p0 = [] then entities else p0
  else entities

/-- Stage 2 of `filter_candidates` (lines 264 to 274): room narrowing above 50
candidates, applied only when the narrowed subset is non-empty.  The source
keeps an entity when the normalized requested room occurs as a substring of
the entity's normalized room field (`room_norm in normalize(...)`) — one
direction only. -/
def Engine.roomNarrow (dev : Obj) (pool : List Obj) : List Obj :=
  if 50 < pool.length then
    let room_q := get_primary_field dev .room
    if room_q ≠ "" then
      let rn := normalize room_q
      let rf := pool.filter (fun e => strIn rn (normalize (get_primary_field e .room)))
      if rf ≠ [] then rf else pool
    else pool
  else pool

/-- Stage 3 of `filter_candidates` (lines 277 to 287): the same one-directional
floor narrowing above 30 candidates. -/
def Engine.floorNarrow (dev : Obj) (pool : List Obj) : List Obj :=
  if 30 < pool.length then
    let floor_q := get_primary_field dev .floor
    if floor_q ≠ "" then
      let fn := normalize floor_q
      let ff := pool.filter (fun e => strIn fn (normalize (get_primary_field e .floor)))
      if ff ≠ [] then ff else pool
    else pool
  else pool

theorem typePool_ne_nil (dev : Obj) (entities : List Obj)
    (ti : List (String × List Obj)) (h : entities ≠ []) :
    Engine.typePool dev entities ti ≠ [] := by
  simp only [Engine.typePool]
  split_ifs <;> assumption

theorem roomNarrow_ne_nil (dev : Obj) (pool : List Obj) (h : pool ≠ []) :
    Engine.roomNarrow dev pool ≠ [] := by
  simp only [Engine.roomNarrow]
  split_ifs <;> assumption

theorem floorNarrow_ne_nil (dev : Obj) (pool : List Obj) (h : pool ≠ []) :
    Engine.floorNarrow dev pool ≠ [] := by
  simp only [Engine.floorNarrow]
  split_ifs <;> assumption

/-- C6 counterexample: the narrowing keep-test is not the claimed symmetric
contains-or-contained-by relation.  With a requested room `living_room` and a
pool of 51 entities, the entity in room `living` — whose normalized room is
contained in the normalized request — is dropped by the room narrowing,
although the claim says it must be kept. -/
theorem C6_counterexample :
    let entA : Obj := { room_name_en := ("living_room") }
    let entB : Obj := { room_name_en := ("living") }
    let dev : Obj := { room_name_en := ("living_room") }
    let pool : List Obj := List.replicate 50 entA ++ [entB]
    50 < pool.length ∧
    get_primary_field dev .room ≠ "" ∧
    strIn (normalize (get_primary_field entB .room))
      (normalize (get_primary_field dev .room)) ∧
    entB ∉ Engine.filter_candidates dev pool (Engine.build_type_index pool) ∧
    Engine.filter_candidates dev pool (Engine.build_type_index pool) ≠ [] := by
  decide

/-- C6: corrected narrowing contract of `filter_candidates`.  The function is
the composition of the type-bucket stage with the room and floor narrowing
stages; it never empties a non-empty entity pool; and when a narrowing stage
fires (pool above the 50 or 30 limit, a requested field, and a non-empty
narrowed subset) it keeps exactly the entities whose normalized field
*contains* the normalized request — the contained-by direction of the claim
is not implemented. -/
theorem C6_filter_narrowing (dev : Obj) (entities : List Obj)
    (ti : List (String × List Obj)) :
    (Engine.filter_candidates dev entities ti =
      Engine.floorNarrow dev (Engine.roomNarrow dev (Engine.typePool dev entities ti))) ∧
    (entities ≠ [] → Engine.filter_candidates dev entities ti ≠ []) ∧
    (∀ pool : List Obj, 50 < pool.length → get_primary_field dev .room ≠ "" →
      pool.filter (fun e => strIn (normalize (get_primary_field dev .room))
        (normalize (get_primary_field e .room))) ≠ [] →
      Engine.roomNarrow dev pool =
        pool.filter (fun e => strIn (normalize (get_primary_field dev .room))
          (normalize (get_primary_field e .room)))) ∧
    (∀ pool : List Obj, 30 < pool.length → get_primary_field dev .floor ≠ "" →
      pool.filter (fun e => strIn (normalize (get_primary_field dev .floor))
        (normalize (get_primary_field e .floor))) ≠ [] →
      Engine.floorNarrow dev pool =
        pool.filter (fun e => strIn (normalize (get_primary_field dev .floor))
          (normalize (get_primary_field e .floor)))) := by
  refine ⟨rfl, ?_, ?_, ?_⟩
  · intro h
    show Engine.floorNarrow dev (Engine.roomNarrow dev (Engine.typePool dev entities ti)) ≠ []
    exact floorNarrow_ne_nil _ _ (roomNarrow_ne_nil _ _ (typePool_ne_nil _ _ _ h))
  · intro pool h50 hrq hrf
    simp only [Engine.roomNarrow]
    rw [if_pos h50, if_pos hrq, if_pos hrf]
  · intro pool h30 hfq hff
    simp only [Engine.floorNarrow]
    rw [if_pos h30, if_pos hfq, if_pos hff]

/-- A request with both a room and a floor, for the C6 narrowing witness. -/
def wDev : Obj := { room_name_en := ("living_room"), floor_name := ("1") }

/-- An entity matching `wDev` in room and floor. -/
def wEntA : Obj := { room_name_en := ("living_room"), floor_name := ("1") }

theorem C6_filter_narrowing_witness :
    (Engine.filter_candidates wDev [wEntA] (Engine.build_type_index [wEntA]) ≠ []) ∧
    (Engine.roomNarrow wDev (List.replicate 51 wEntA) =
      (List.replicate 51 wEntA).filter (fun e =>
        strIn (normalize (get_primary_field wDev .room))
          (normalize (get_primary_field e .room)))) ∧
    (Engine.floorNarrow wDev (List.replicate 31 wEntA) =
      (List.replicate 31 wEntA).filter (fun e =>
        strIn (normalize (get_primary_field wDev .floor))
          (normalize (get_primary_field e .floor)))) :=
  ⟨(C6_filter_narrowing wDev [wEntA] (Engine.build_type_index [wEntA])).2.1 (by decide),
   (C6_filter_narrowing wDev [] []).2.2.1 (List.replicate 51 wEntA)
     (by decide) (by decide) (by decide),
   (C6_filter_narrowing wDev [] []).2.2.2 (List.replicate 31 wEntA)
     (by decide) (by decide) (by decide)⟩

theorem mkSuggestion_reason (e : Obj) (s : ℚ) :
    (Engine.mkSuggestion e s).reason_score = pyRound3 s := rfl

/-- C7: contract of `loose_suggestions`.  When the request carries a floor
(non-empty after the local normalization) and no entity of the pool has any
floor field populated, the suggestions are empty — no cross-floor guessing.
In every case at most 3 suggestions are produced, each one is built from a
pool entity that passed the floor/room scoping test with the relaxed ungated
weighted score of its four fields, and the suggestions are ordered by
non-increasing rounded score; moreover, whenever the empty-floor cutoff does
not fire, the suggestions are exactly the first 3 entries of a descending
reordering of the whole scoped scored pool — the top 3 by relaxed score. -/
theorem C7_loose_suggestions (tf : String → List String → ℚ) (dev : Obj)
    (pool : List Obj) (cfg : Engine.Cfg) :
    ((Engine.looseNorm (get_primary_field dev .floor) ≠ "" ∧
      ∀ e ∈ pool, get_primary_field e .floor = "") →
      Engine.loose_suggestions tf dev pool cfg = []) ∧
    (Engine.loose_suggestions tf dev pool cfg).length ≤ 3 ∧
    (∀ s ∈ Engine.loose_suggestions tf dev pool cfg, ∃ e ∈ pool,
      Engine.looseKeep (Engine.looseNorm (get_primary_field dev .floor))
        (Engine.looseNorm (get_primary_field dev .room)) e = true ∧
      s = Engine.mkSuggestion e (Engine.relaxed_score tf dev e)) ∧
    ((Engine.loose_suggestions tf dev pool cfg).map
      (·.reason_score)).Pairwise (· ≥ ·) ∧
    (¬(Engine.looseNorm (get_primary_field dev .floor) ≠ "" ∧
        pool.filter (Engine.looseKeep (Engine.looseNorm (get_primary_field dev .floor))
          (Engine.looseNorm (get_primary_field dev .room))) = []) →
      ∃ sorted : List (Obj × ℚ),
        sorted.Perm ((pool.filter (Engine.looseKeep
            (Engine.looseNorm (get_primary_field dev .floor))
            (Engine.looseNorm (get_primary_field dev .room)))).map
          (fun e => (e, Engine.relaxed_score tf dev e))) ∧
        sorted.Pairwise (fun a b => (b.2 : ℚ) ≤ a.2) ∧
        Engine.loose_suggestions tf dev pool cfg =
          (sorted.take 3).map (fun p => Engine.mkSuggestion p.1 p.2)) := by
  have hchar : ∀ e s, (Engine.mkSuggestion e s).reason_score = pyRound3 s :=
    fun e s => rfl
  refine ⟨?_, ?_, ?_, ?_, ?_⟩
  · intro ⟨hrf, hfl⟩
    have hk : ∀ e ∈ pool,
        ¬(Engine.looseKeep (Engine.looseNorm (get_primary_field dev .floor))
          (Engine.looseNorm (get_primary_field dev .room)) e = true) := by
      intro e he
      have h0 : Engine.looseNorm (get_primary_field e .floor) = "" := by
        rw [hfl e he]
        rfl
      simp [Engine.looseKeep, h0, beq_eq_false_iff_ne.mpr hrf]
    have hfil : pool.filter (Engine.looseKeep (Engine.looseNorm (get_primary_field dev .floor))
        (Engine.looseNorm (get_primary_field dev .room))) = [] :=
      List.filter_eq_nil_iff.mpr hk
    have hP : Engine.looseNorm (get_primary_field dev .floor) ≠ "" ∧
        pool.filter (Engine.looseKeep (Engine.looseNorm (get_primary_field dev .floor))
          (Engine.looseNorm (get_primary_field dev .room))) = [] := ⟨hrf, hfil⟩
    simp only [Engine.loose_suggestions]
    rw [if_pos hP]
  · simp only [Engine.loose_suggestions]
    split_ifs
    · simp
    · rw [List.length_map]
      exact List.length_take_le _ _
  · simp only [Engine.loose_suggestions]
    split_ifs
    · intro s hs
      exact absurd hs (List.not_mem_nil s)
    · intro s hs
      rw [List.mem_map] at hs
      obtain ⟨pr, hpr, rfl⟩ := hs
      have h1 := List.mem_of_mem_take hpr
      rw [List.mem_insertionSort] at h1
      rw [List.mem_map] at h1
      obtain ⟨e, he, heq⟩ := h1
      rw [List.mem_filter] at he
      exact ⟨e, he.1, he.2, by rw [← heq]⟩
  · simp only [Engine.loose_suggestions]
    split_ifs
    · simp
    · haveI : IsTotal (Obj × ℚ) (fun a b => (b.2 : ℚ) ≤ a.2) :=
        ⟨fun a b => le_total b.2 a.2⟩
      haveI : IsTrans (Obj × ℚ) (fun a b => (b.2 : ℚ) ≤ a.2) :=
        ⟨fun a b c hab hbc => le_trans hbc hab⟩
      rw [List.map_map, List.pairwise_map]
      have hp : (List.insertionSort (fun a b => (b.2 : ℚ) ≤ a.2)
          ((pool.filter (Engine.looseKeep (Engine.looseNorm (get_primary_field dev .floor))
            (Engine.looseNorm (get_primary_field dev .room)))).map
            (fun e => (e, Engine.relaxed_score tf dev e)))).Pairwise
          (fun a b => (b.2 : ℚ) ≤ a.2) :=
        List.sorted_insertionSort _ _
      refine (List.Pairwise.sublist (List.take_sublist _ _) hp).imp ?_
      intro a b h
      show (Engine.mkSuggestion b.1 b.2).reason_score ≤ (Engine.mkSuggestion a.1 a.2).reason_score
      rw [hchar, hchar]
      exact pyRound3_mono h
  · intro h
    haveI : IsTotal (Obj × ℚ) (fun a b => (b.2 : ℚ) ≤ a.2) :=
      ⟨fun a b => le_total b.2 a.2⟩
    haveI : IsTrans (Obj × ℚ) (fun a b => (b.2 : ℚ) ≤ a.2) :=
      ⟨fun a b c hab hbc => le_trans hbc hab⟩
    refine ⟨List.insertionSort (fun a b => (b.2 : ℚ) ≤ a.2)
      ((pool.filter (Engine.looseKeep (Engine.looseNorm (get_primary_field dev .floor))
        (Engine.looseNorm (get_primary_field dev .room)))).map
        (fun e => (e, Engine.relaxed_score tf dev e))), ?_, ?_, ?_⟩
    · exact List.perm_insertionSort _ _
    · exact List.sorted_insertionSort _ _
    · simp only [Engine.loose_suggestions]
      rw [if_neg h]

/-- An entity with no floor information, for the C7 witness. -/
def wNoFloor : Obj := { room_name_en := ("living_room") }

theorem C7_loose_suggestions_witness :
    (Engine.loose_suggestions Engine.tfZero wDev [wNoFloor] {} = []) ∧
    (∃ e ∈ [Engine.scnLiving],
      Engine.looseKeep (Engine.looseNorm (get_primary_field wDev .floor))
        (Engine.looseNorm (get_primary_field wDev .room)) e = true ∧
      Engine.mkSuggestion Engine.scnLiving
          (Engine.relaxed_score Engine.tfZero wDev Engine.scnLiving) =
        Engine.mkSuggestion e (Engine.relaxed_score Engine.tfZero wDev e)) ∧
    (∃ sorted : List (Obj × ℚ),
      sorted.Perm (([Engine.scnLiving].filter (Engine.looseKeep
          (Engine.looseNorm (get_primary_field wDev .floor))
          (Engine.looseNorm (get_primary_field wDev .room)))).map
        (fun e => (e, Engine.relaxed_score Engine.tfZero wDev e))) ∧
      sorted.Pairwise (fun a b => (b.2 : ℚ) ≤ a.2) ∧
      Engine.loose_suggestions Engine.tfZero wDev [Engine.scnLiving] {} =
        (sorted.take 3).map (fun p => Engine.mkSuggestion p.1 p.2)) :=
  ⟨(C7_loose_suggestions Engine.tfZero wDev [wNoFloor] {}).1 (by decide),
   (C7_loose_suggestions Engine.tfZero wDev [Engine.scnLiving] {}).2.2.1
     (Engine.mkSuggestion Engine.scnLiving
       (Engine.relaxed_score Engine.tfZero wDev Engine.scnLiving)) (by decide),
   (C7_loose_suggestions Engine.tfZero wDev [Engine.scnLiving] {}).2.2.2.2
     (by decide)⟩

/-- A JSON-like Python value, as decoded from the stdin payload. -/
inductive PyVal where
  | null
  | boolV (b : Bool)
  | intV (n : Int)
  | strV (s : String)
  | arrV (xs : List PyVal)
  | dictV (fields : List (String × PyVal))

/-- `isinstance(v, dict)`. -/
def pvIsDict : PyVal → Bool
  | .dictV _ => true
  | _ => false

/-- `isinstance(v, list)`. -/
def pvIsList : PyVal → Bool
  | .arrV _ => true
  | _ => false

/-- `k in v` on a dict (false on any non-dict). -/
def pvHasKey : PyVal → String → Bool
  | .dictV fs, k => fs.any (·.1 == k)
  | _, _ => false

/-- `v.get(k, d)`: the value stored under `k`, else the default (`None` is
modelled as `.null`); non-dicts give the default. -/
def pvGetD : PyVal → String → PyVal → PyVal
  | .dictV fs, k, d => (((fs.find? (·.1 == k)).map (·.2)).getD d)
  | _, _, d => d

/-- `validate_input` (matcher_engine.py lines 513 to 567): shape checks for
the new wrapped format and the old flat format, with the source's error
messages. -/
def validate_input (p : PyVal) : Bool × String :=
  if !pvIsDict p then (false, ("Payload must be a dictionary"))
  else if pvHasKey p ("intention_data") || pvHasKey p ("entities_data") then
    let intention_obj := pvGetD p ("intention_data") (.dictV [])
    if !pvIsDict intention_obj then
      (false, ("'intention_data' must be a dictionary"))
    else
      let intention_data := pvGetD intention_obj ("data") (.dictV [])
      if !pvIsDict intention_data then
        (false, ("'intention_data.data' must be a dictionary"))
      else if !pvHasKey intention_data ("devices") then
        (false, ("Missing 'intention_data.data.devices' field"))
      else if !pvIsList (pvGetD intention_data ("devices") .null) then
        (false, ("'intention_data.data.devices' must be a list"))
      else
        let entities_obj := pvGetD p ("entities_data") (.dictV [])
        if !pvIsDict entities_obj then
          (false, ("'entities_data' must be a dictionary"))
        else
          let entities_data := pvGetD entities_obj ("data") (.dictV [])
          if !pvIsDict entities_data then
            (false, ("'entities_data.data' must be a dictionary"))
          else if !pvHasKey entities_data ("entities") then
            (false, ("Missing 'entities_data.data.entities' field"))
          else if !pvIsList (pvGetD entities_data ("entities") .null) then
            (false, ("'entities_data.data.entities' must be a list"))
          else (true, (""))
  else if !pvHasKey p ("entities") then (false, ("Missing 'entities' field"))
  else if !pvIsList (pvGetD p ("entities") .null) then
    (false, ("'entities' must be a list"))
  else if !pvHasKey p ("intent_devices") then
    (false, ("Missing 'intent_devices' field"))
  else if !pvIsList (pvGetD p ("intent_devices") .null) then
    (false, ("'intent_devices' must be a list"))
  else (true, (""))

/-- The one-shot branch of `main` (matcher_engine.py lines 763 to 781) after a
successful JSON decode: a failed validation prints the single error object and
returns without calling `process`; otherwise the result of `process` is the
only output.  `extract` stands for the envelope extraction of `process`
(lines 585 to 630) that feeds the scoring pipeline. -/
def mainRun (tf : String → List String → ℚ)
    (extract : PyVal → Engine.ProcessInput) (p : PyVal) :
    Except String Engine.Output :=
  let v := validate_input p
  if v.1 then Except.ok (Engine.process tf {} (extract p)).2
  else Except.error v.2

/-- C8: malformed payloads are rejected with a descriptive error and no
partial result.  Whenever validation fails its message is non-empty and the
program output is exactly the one error object (the match pipeline is never
entered); and validation does fail on every payload whose device or entity
sequence is missing or not a list, in the old flat format as well as in the
new wrapped format. -/
theorem C8_validation_rejects (tf : String → List String → ℚ)
    (extract : PyVal → Engine.ProcessInput) (p : PyVal) :
    ((validate_input p).1 = false →
      (validate_input p).2 ≠ "" ∧
      mainRun tf extract p = Except.error (validate_input p).2) ∧
    (pvIsDict p = true →
      (pvHasKey p ("intention_data") || pvHasKey p ("entities_data")) = false →
      (pvHasKey p ("entities") = false ∨
        pvIsList (pvGetD p ("entities") .null) = false ∨
        pvHasKey p ("intent_devices") = false ∨
        pvIsList (pvGetD p ("intent_devices") .null) = false) →
      (validate_input p).1 = false) ∧
    (pvIsDict p = true →
      (pvHasKey p ("intention_data") || pvHasKey p ("entities_data")) = true →
      (pvHasKey (pvGetD (pvGetD p ("intention_data") (.dictV [])) ("data")
          (.dictV [])) ("devices") = false ∨
        pvIsList (pvGetD (pvGetD (pvGetD p ("intention_data") (.dictV []))
          ("data") (.dictV [])) ("devices") .null) = false ∨
        pvHasKey (pvGetD (pvGetD p ("entities_data") (.dictV [])) ("data")
          (.dictV [])) ("entities") = false ∨
        pvIsList (pvGetD (pvGetD (pvGetD p ("entities_data") (.dictV []))
          ("data") (.dictV [])) ("entities") .null) = false) →
      (validate_input p).1 = false) := by
  refine ⟨?_, ?_, ?_⟩
  · intro hv
    constructor
    · simp only [validate_input] at hv ⊢
      split_ifs at hv ⊢ <;> first | decide | simp at hv
    · simp only [mainRun, hv, Bool.false_eq_true, if_false]
  · intro hd hnew hbad
    simp only [validate_input, hd, hnew, Bool.not_true, Bool.false_eq_true, if_false]
    rcases hbad with h | h | h | h <;> split_ifs <;> simp_all
  · intro hd hnew hbad
    simp only [validate_input, hd, hnew, Bool.not_true, Bool.false_eq_true,
      if_false, if_true]
    rcases hbad with h | h | h | h <;> split_ifs <;> simp_all

/-- The empty dictionary payload: old format with both sequences missing. -/
def pBadOld : PyVal := .dictV []

/-- A wrapped-format payload whose `intention_data.data` carries no
`devices` list. -/
def pBadNew : PyVal := .dictV [(("intention_data"), .dictV [])]

theorem C8_validation_rejects_witness :
    ((validate_input pBadOld).2 ≠ "" ∧
      mainRun Engine.tfZero (fun _ => {}) pBadOld =
        Except.error (validate_input pBadOld).2) ∧
    ((validate_input pBadOld).1 = false) ∧
    ((validate_input pBadNew).1 = false) :=
  ⟨(C8_validation_rejects Engine.tfZero (fun _ => {}) pBadOld).1 (by rfl),
   (C8_validation_rejects Engine.tfZero (fun _ => {}) pBadOld).2.1
     (by rfl) (by rfl) (Or.inl (by rfl)),
   (C8_validation_rejects Engine.tfZero (fun _ => {}) pBadNew).2.2
     (by rfl) (by rfl) (Or.inl (by rfl))⟩

end BestMatch
